import Mathlib

/-!
Shallow embedding of the invoice synchronization core of the
Trendyol/Oblio integration (sync-service.ts, transform-service.ts,
storage-service.ts) together with theorems about its behaviour.

Modelling conventions:
* JavaScript numbers carrying monetary amounts, quantities and
  percentages are modelled as exact rationals (`ℚ`); identifiers and
  counters as `Nat`; `workStation` as `Int`.
* ISO-8601 timestamp strings (`new Date().toISOString()`) are modelled
  by their epoch-millisecond values (`Nat`): the source only ever
  stamps, compares and adds offsets to them through `Date`.
* `sessionStorage` contents for the session-data key are modelled as
  `Option SessionData` (`none` is an absent key, read as `null`).
* Remote clients (`OblioClient.createInvoice`,
  `TrendyolClient.sendInvoiceLinkToOrder`) are external collaborators;
  they are passed in as response functions, and every call the
  orchestrator makes to them is recorded in a `RemoteCall` list.
* `addLogEntry` only appends to a bounded audit log that no modelled
  operation ever reads back; log entries are elided from the state.
* Validation warnings are computed by the source but never read by the
  orchestrator (only `isValid` and `errors` are); they are elided.
-/

/-- Lifecycle status of a processed-invoice record, the string union
`'pending' | 'completed' | 'failed'` from models/common.ts. -/
inductive InvoiceStatus where
  | pending
  | completed
  | failed
deriving DecidableEq

/-- The literal status string as the source stores and interpolates it. -/
def InvoiceStatus.toStr : InvoiceStatus → String
  | .pending => "pending"
  | .completed => "completed"
  | .failed => "failed"

/-- `ProcessedInvoice` (models/common.ts, as extended and stored by the
storage service with the retry bookkeeping fields that sync-service.ts
writes). Timestamps are epoch milliseconds. -/
structure ProcessedInvoice where
  trendyolOrderId : String
  oblioInvoiceId : Option String := none
  status : InvoiceStatus
  errorMessage : Option String := none
  retryCount : Option Nat := none
  lastRetryAt : Option Nat := none
  nextRetryAt : Option Nat := none
  processedAt : Nat
deriving DecidableEq

/-- `PackageLine` (models/trendyol.ts); only the fields read by the
embedded operations are carried. -/
structure PackageLine where
  quantity : ℚ
  productSize : String
  merchantSku : String
  productName : String
  amount : ℚ
  currencyCode : String
  productColor : String
  sku : String
  vatBaseAmount : ℚ
  barcode : String
deriving DecidableEq

/-- `InvoiceAddress` (models/trendyol.ts), the fields read by the
transform and the validators. -/
structure InvoiceAddress where
  firstName : String
  lastName : String
  company : String
  address1 : String
  address2 : String
  neighborhood : String
  district : String
  city : String
  countryCode : String
deriving DecidableEq

/-- `CustomerInfo` (models/trendyol.ts), the fields read by the transform. -/
structure CustomerInfo where
  email : String
  gsm : String
deriving DecidableEq

/-- `TrendyolShipmentPackage` (models/trendyol.ts); only the fields read
by the embedded operations are carried. -/
structure TrendyolShipmentPackage where
  id : Nat
  packageNumber : String
  orderId : String
  status : String
  taxNumber : String
  invoiceAddress : InvoiceAddress
  customerInfo : CustomerInfo
  lines : List PackageLine
deriving DecidableEq

/-- Session-scoped state persisted by the storage service
(models/storage.ts `SessionData`); the fields the claims are about.
The audit log (`syncLogs`) and UI selection are elided, see the header. -/
structure SessionData where
  currentShipmentPackages : List TrendyolShipmentPackage
  processedInvoices : List ProcessedInvoice
deriving DecidableEq

namespace BrowserStorageService

/-- `getDefaultSessionData` (storage-service.ts): empty working set. -/
def getDefaultSessionData : SessionData :=
  { currentShipmentPackages := [], processedInvoices := [] }

/-- `getSessionData` (storage-service.ts): reads the session key. -/
def getSessionData (store : Option SessionData) : Option SessionData :=
  store

/-- `getProcessedInvoice` (storage-service.ts): first record whose
`trendyolOrderId` equals the given order id, `null` when the session
key is absent or no record matches. -/
def getProcessedInvoice (store : Option SessionData) (orderId : String) :
    Option ProcessedInvoice :=
  match store with
  | none => none
  | some sd => sd.processedInvoices.find? (fun inv => inv.trendyolOrderId == orderId)

/-- Replacement step of `addProcessedInvoice` (storage-service.ts):
`findIndex` locates the first record with the same `trendyolOrderId`
and the record is assigned over it; with no match it is pushed at the
end. -/
def addToProcessedList (invoice : ProcessedInvoice) :
    List ProcessedInvoice → List ProcessedInvoice
  | [] => [invoice]
  | inv :: rest =>
    if inv.trendyolOrderId == invoice.trendyolOrderId then
      invoice :: rest
    else
      inv :: addToProcessedList invoice rest

/-- `addProcessedInvoice` (storage-service.ts): replace-or-append, then
save the session data. -/
def addProcessedInvoice (store : Option SessionData) (invoice : ProcessedInvoice) :
    Option SessionData :=
  let sd := store.getD getDefaultSessionData
  some { sd with processedInvoices := addToProcessedList invoice sd.processedInvoices }

/-- `Partial<ProcessedInvoice>` as used by `updateProcessedInvoice`.
A `none` field models a property that is absent or explicitly set to
`undefined`: the `!== undefined` tests the source performs cannot
distinguish those two cases. `trendyolOrderId` updates are ignored by
the source (the existing id is always preserved) and are not carried. -/
structure ProcessedInvoiceUpdate where
  oblioInvoiceId : Option String := none
  status : Option InvoiceStatus := none
  errorMessage : Option String := none
  retryCount : Option Nat := none
  lastRetryAt : Option Nat := none
  nextRetryAt : Option Nat := none
  processedAt : Option Nat := none
deriving DecidableEq

/-- Field merge of `updateProcessedInvoice` (storage-service.ts):
`updates.f !== undefined ? updates.f : existingInvoice.f`, and an
optional field is kept on the record only if the merged value is not
`undefined`. Consequently an optional field can never be cleared. -/
def updField {α : Type} (upd ex : Option α) : Option α :=
  match upd with
  | some v => some v
  | none => ex

/-- The merged record `updatedInvoice` built by `updateProcessedInvoice`
(storage-service.ts): id always preserved, `processedAt` and `status`
taken from the update when provided, optional fields merged with
`updField`. -/
def applyInvoiceUpdate (u : ProcessedInvoiceUpdate) (ex : ProcessedInvoice) :
    ProcessedInvoice :=
  { trendyolOrderId := ex.trendyolOrderId
    processedAt := u.processedAt.getD ex.processedAt
    status := u.status.getD ex.status
    oblioInvoiceId := updField u.oblioInvoiceId ex.oblioInvoiceId
    errorMessage := updField u.errorMessage ex.errorMessage
    retryCount := updField u.retryCount ex.retryCount
    lastRetryAt := updField u.lastRetryAt ex.lastRetryAt
    nextRetryAt := updField u.nextRetryAt ex.nextRetryAt }

/-- In-list step of `updateProcessedInvoice` (storage-service.ts):
`findIndex` locates the first record with the given order id and the
merged record is assigned at that index; `none` when no record matches
(`invoiceIndex < 0`). -/
def updateInProcessedList (orderId : String) (u : ProcessedInvoiceUpdate) :
    List ProcessedInvoice → Option (List ProcessedInvoice)
  | [] => none
  | inv :: rest =>
    if inv.trendyolOrderId == orderId then
      some (applyInvoiceUpdate u inv :: rest)
    else
      (updateInProcessedList orderId u rest).map (fun l => inv :: l)

/-- `updateProcessedInvoice` (storage-service.ts): when no record with
the given order id exists nothing is saved and the stored session data
is left exactly as it was (including an absent key). -/
def updateProcessedInvoice (store : Option SessionData) (orderId : String)
    (u : ProcessedInvoiceUpdate) : Option SessionData :=
  let sd := store.getD getDefaultSessionData
  match updateInProcessedList orderId u sd.processedInvoices with
  | none => store
  | some l => some { sd with processedInvoices := l }

end BrowserStorageService

/-- JavaScript `String.prototype.trim`: strip whitespace from both
ends (the inputs this pipeline trims are ASCII, where
`Char.isWhitespace` agrees with the JS whitespace set). -/
def jsTrim (s : String) : String :=
  ⟨((s.data.dropWhile Char.isWhitespace).reverse.dropWhile Char.isWhitespace).reverse⟩

/-- `ValidationResult` (models/common.ts): validity flag plus the list
of error messages, in push order. -/
structure ValidationResult where
  isValid : Bool
  errors : List String
deriving DecidableEq

/-- `TransformConfig` (transform-service.ts). -/
structure TransformConfig where
  cif : String
  workStation : Int
  seriesName : String
  language : String
  defaultVatPercentage : ℚ
  defaultMeasuringUnit : String
deriving DecidableEq

/-- `OblioClient` (models/oblio.ts), the client block of an invoice
request; the fields the transform assigns and the validators read. -/
structure OblioClient where
  cif : String
  name : String
  address : Option String := none
  city : Option String := none
  country : Option String := none
  email : Option String := none
  phone : Option String := none
  contact : Option String := none
  vatPayer : Option Bool := none
deriving DecidableEq

/-- `OblioProduct` (models/oblio.ts). -/
structure OblioProduct where
  name : String
  code : Option String := none
  description : Option String := none
  price : ℚ
  measuringUnit : Option String := none
  currency : Option String := none
  vatPercentage : Option ℚ := none
  vatIncluded : Option Bool := none
  quantity : ℚ
  productType : Option String := none
deriving DecidableEq

/-- `OblioInvoiceRequest` (models/oblio.ts), the fields the transform
assigns and the validators read. -/
structure OblioInvoiceRequest where
  cif : String
  client : OblioClient
  issueDate : String
  dueDate : String
  currency : String
  language : String
  workStation : Int
  seriesName : String
  useStock : Nat
  products : List OblioProduct
  internalNote : Option String := none
  noticeNumber : Option String := none
deriving DecidableEq

namespace TransformService

/-- `calculateVatPercentage` (transform-service.ts). The JavaScript
guard `line.vatBaseAmount && line.vatBaseAmount > 0 && line.amount > 0`
is truthiness (non-zero) of `vatBaseAmount` followed by the two
comparisons. `Math.round(x * 100) / 100` is rounding half toward
positive infinity, which is exactly Mathlib `round` on `ℚ`. -/
def calculateVatPercentage (config : TransformConfig) (line : PackageLine) : ℚ :=
  if line.vatBaseAmount ≠ 0 ∧ line.vatBaseAmount > 0 ∧ line.amount > 0 then
    let vatAmount := line.amount - line.vatBaseAmount
    let vatPercentage := vatAmount / line.vatBaseAmount * 100
    ((round (vatPercentage * 100) : ℤ) : ℚ) / 100
  else
    config.defaultVatPercentage

/-- `extractCurrency` (transform-service.ts): currency of the first
line, defaulting to RON when there are no lines or the code is empty.
The source's `typeof` check is a constant true on the string field and
`trim` of a non-empty code is checked against the empty string. -/
def extractCurrency (lines : List PackageLine) : String :=
  match lines with
  | [] => "RON"
  | firstLine :: _ =>
    let currency := firstLine.currencyCode
    if currency == "" || jsTrim currency == "" then "RON" else currency

/-- `mapCountryCode` (transform-service.ts): static lookup table,
unknown codes pass through unchanged. -/
def mapCountryCode (countryCode : String) : String :=
  match countryCode with
  | "TR" => "Turkey"
  | "RO" => "Romania"
  | "BG" => "Bulgaria"
  | "HU" => "Hungary"
  | "CZ" => "Czech Republic"
  | "SK" => "Slovakia"
  | "PL" => "Poland"
  | "HR" => "Croatia"
  | "SI" => "Slovenia"
  | "RS" => "Serbia"
  | "BA" => "Bosnia and Herzegovina"
  | "MK" => "North Macedonia"
  | "AL" => "Albania"
  | "ME" => "Montenegro"
  | "XK" => "Kosovo"
  | other => other

/-- `mapCustomerToOblioClient` (transform-service.ts). `filter(Boolean)`
keeps the non-empty address parts; `company || fullName` falls back on
the empty company string; `Boolean(taxNumber)` is non-emptiness. -/
def mapCustomerToOblioClient (pkg : TrendyolShipmentPackage) : OblioClient :=
  let invoiceAddress := pkg.invoiceAddress
  let fullName := jsTrim (invoiceAddress.firstName ++ " " ++ invoiceAddress.lastName)
  let addressParts :=
    [invoiceAddress.address1, invoiceAddress.address2,
     invoiceAddress.neighborhood, invoiceAddress.district].filter (fun s => s ≠ "")
  let fullAddress := String.intercalate ", " addressParts
  { cif := pkg.taxNumber
    name := if invoiceAddress.company ≠ "" then invoiceAddress.company else fullName
    address := some fullAddress
    city := some invoiceAddress.city
    country := some (mapCountryCode invoiceAddress.countryCode)
    email := some pkg.customerInfo.email
    phone := some pkg.customerInfo.gsm
    contact := some fullName
    vatPayer := some (pkg.taxNumber ≠ "") }

/-- `mapPackageLineToOblioProduct` (transform-service.ts): unit price is
`amount / quantity` guarded by `quantity > 0`, the description is built
from the non-empty size/color/SKU parts, the code is the first
non-empty of sku/barcode/merchantSku. -/
def mapPackageLineToOblioProduct (config : TransformConfig) (line : PackageLine) :
    OblioProduct :=
  let unitPrice := if line.quantity > 0 then line.amount / line.quantity else line.amount
  let descriptionParts :=
    (if line.productSize ≠ "" then [("Size: " ++ line.productSize)] else []) ++
    (if line.productColor ≠ "" then [("Color: " ++ line.productColor)] else []) ++
    (if line.merchantSku ≠ "" then [("SKU: " ++ line.merchantSku)] else [])
  let description :=
    if descriptionParts.length > 0 then some (String.intercalate ", " descriptionParts)
    else none
  let codeVal :=
    if line.sku ≠ "" then some line.sku
    else if line.barcode ≠ "" then some line.barcode
    else if line.merchantSku ≠ "" then some line.merchantSku
    else none
  { name := line.productName
    price := unitPrice
    quantity := line.quantity
    measuringUnit := some config.defaultMeasuringUnit
    vatPercentage := some (calculateVatPercentage config line)
    vatIncluded := some true
    productType := some "produs"
    code := codeVal
    description := description
    currency := if line.currencyCode ≠ "" then some line.currencyCode else none }

/-- `mapPackageLinesToOblioProducts` (transform-service.ts). -/
def mapPackageLinesToOblioProducts (config : TransformConfig)
    (lines : List PackageLine) : List OblioProduct :=
  lines.map (mapPackageLineToOblioProduct config)

/-- `trendyolPackageToOblioInvoice` (transform-service.ts). The issue
and due dates come from the ambient clock
(`new Date().toISOString().split(...)` for today and today plus 30
days); the embedding receives those two date strings. -/
def trendyolPackageToOblioInvoice (config : TransformConfig)
    (issueDate dueDate : String) (pkg : TrendyolShipmentPackage) :
    OblioInvoiceRequest :=
  { cif := config.cif
    client := mapCustomerToOblioClient pkg
    issueDate := issueDate
    dueDate := dueDate
    currency := extractCurrency pkg.lines
    language := config.language
    workStation := config.workStation
    seriesName := config.seriesName
    useStock := 0
    products := mapPackageLinesToOblioProducts config pkg.lines
    internalNote := some ("Trendyol Order: " ++ pkg.orderId ++ ", Package: " ++ pkg.packageNumber)
    noticeNumber := some pkg.packageNumber }

end TransformService

/-- One-character digit test used by the date-shape model. -/
def isDigitChar (c : Char) : Bool := c.isDigit

/-- Numeric value of a digit character. -/
def digitVal (c : Char) : Nat := c.toNat - 48

/-- Models the regex `/^\d{4}-\d{2}-\d{2}$/` of the validators: exactly
ten characters, digits with dashes at positions 4 and 7. -/
def isIsoDateShape (s : String) : Bool :=
  match s.data with
  | [a, b, c, d, h1, e, f, h2, g, i] =>
    isDigitChar a && isDigitChar b && isDigitChar c && isDigitChar d &&
    h1 == '-' &&
    isDigitChar e && isDigitChar f &&
    h2 == '-' &&
    isDigitChar g && isDigitChar i
  | _ => false

/-- Gregorian leap-year rule. -/
def isLeapYear (y : Nat) : Bool :=
  y % 4 == 0 && (y % 100 != 0 || y % 400 == 0)

/-- Days in a month of the proleptic Gregorian calendar. -/
def daysInMonth (y m : Nat) : Nat :=
  if m == 1 || m == 3 || m == 5 || m == 7 || m == 8 || m == 10 || m == 12 then 31
  else if m == 4 || m == 6 || m == 9 || m == 11 then 30
  else if isLeapYear y then 29 else 28

/-- Models `new Date(s).getTime()` as the validators use it, for the
date-only strings this pipeline produces and checks. A strict
`YYYY-MM-DD` string with in-range month and day parses to UTC midnight
of that day; the returned code `y * 10000 + m * 100 + d` is strictly
monotone in the actual epoch value, and the validators only compare
parsed dates with each other. A `YYYY-MM-DD`-shaped string with an
out-of-range component is an invalid date (`NaN`), per the ECMA-262
date-time string format. Strings of any other shape are modelled as
invalid; full JavaScript parsing of arbitrary date strings is outside
the embedding (the pipeline only ever feeds it `toISOString` prefixes
or strings that already failed the format check). -/
def jsDateOnlyValue (s : String) : Option Nat :=
  match s.data with
  | [a, b, c, d, h1, e, f, h2, g, i] =>
    if isDigitChar a && isDigitChar b && isDigitChar c && isDigitChar d &&
       h1 == '-' && isDigitChar e && isDigitChar f && h2 == '-' &&
       isDigitChar g && isDigitChar i then
      let y := digitVal a * 1000 + digitVal b * 100 + digitVal c * 10 + digitVal d
      let m := digitVal e * 10 + digitVal f
      let dayV := digitVal g * 10 + digitVal i
      if 1 ≤ m ∧ m ≤ 12 ∧ 1 ≤ dayV ∧ dayV ≤ daysInMonth y m then
        some (y * 10000 + m * 100 + dayV)
      else
        none
    else
      none
  | _ => none

namespace TransformService

/-- `validateTrendyolPackage` (transform-service.ts), errors only (the
warnings are never read by the orchestrator). `!trendyolPackage.id` is
truthiness of the numeric id; `!line.amount || line.amount <= 0` is
`amount ≤ 0` over the rationals; `invoiceAddress` is present on every
value of the embedded package type, so its absence branch cannot fire. -/
def validateTrendyolPackage (pkg : TrendyolShipmentPackage) : ValidationResult :=
  let idErrors := if pkg.id == 0 then ["Package ID is required"] else []
  let orderErrors := if pkg.orderId == "" then ["Order ID is required"] else []
  let addr := pkg.invoiceAddress
  let nameErrors :=
    if addr.firstName == "" && addr.lastName == "" && addr.company == "" then
      ["Customer name or company name is required"]
    else []
  let lineErrors :=
    if pkg.lines.isEmpty then
      ["Package must contain at least one product line"]
    else
      (pkg.lines.enum.map (fun p =>
        let lineNum := toString (p.1 + 1)
        (if p.2.productName == "" then
          ["Line " ++ lineNum ++ ": Product name is required"] else []) ++
        (if p.2.amount ≤ 0 then
          ["Line " ++ lineNum ++ ": Amount must be greater than 0"] else []) ++
        (if p.2.quantity ≤ 0 then
          ["Line " ++ lineNum ++ ": Quantity must be greater than 0"] else []))).flatten
  let errors := idErrors ++ orderErrors ++ nameErrors ++ lineErrors
  { isValid := errors.isEmpty, errors := errors }

/-- `validateRequiredFields` (transform-service.ts), error pushes in
source order. `!field || field.trim() === ''` is `trim = ""`;
`workStation` is always present on the embedded request type, so its
absence branch cannot fire. -/
def validateRequiredFields (invoice : OblioInvoiceRequest) : List String :=
  (if jsTrim invoice.cif == "" then ["CIF is required"] else []) ++
  (if jsTrim invoice.client.name == "" then ["Client name is required"] else []) ++
  (if jsTrim invoice.issueDate == "" then ["Issue date is required"] else []) ++
  (if jsTrim invoice.dueDate == "" then ["Due date is required"] else []) ++
  (if jsTrim invoice.currency == "" then ["Currency is required"] else []) ++
  (if jsTrim invoice.language == "" then ["Language is required"] else []) ++
  (if jsTrim invoice.seriesName == "" then ["Series name is required"] else []) ++
  (if invoice.products.isEmpty then ["At least one product is required"] else [])

/-- `validateFormats` (transform-service.ts), errors only: the date
shape checks and the work-station range; the CIF, currency-length and
email checks only push warnings. -/
def validateFormats (invoice : OblioInvoiceRequest) : List String :=
  (if invoice.issueDate ≠ "" && !(isIsoDateShape invoice.issueDate) then
    ["Issue date must be in YYYY-MM-DD format"] else []) ++
  (if invoice.dueDate ≠ "" && !(isIsoDateShape invoice.dueDate) then
    ["Due date must be in YYYY-MM-DD format"] else []) ++
  (if invoice.workStation < 1 || invoice.workStation > 999 then
    ["Work station must be between 1 and 999"] else [])

/-- `validateBusinessRules` (transform-service.ts), errors only: date
parse validity, due-not-before-issue, positive invoice total; the
address/city and far-future-due checks only push warnings. -/
def validateBusinessRules (invoice : OblioInvoiceRequest) : List String :=
  let dateErrors :=
    if invoice.issueDate ≠ "" && invoice.dueDate ≠ "" then
      let issueVal := jsDateOnlyValue invoice.issueDate
      let dueVal := jsDateOnlyValue invoice.dueDate
      (if issueVal.isNone then ["Issue date is not a valid date"] else []) ++
      (if dueVal.isNone then ["Due date is not a valid date"] else []) ++
      (match issueVal, dueVal with
       | some iv, some dv => if dv < iv then ["Due date must be after issue date"] else []
       | _, _ => [])
    else []
  let totalErrors :=
    if !invoice.products.isEmpty then
      let totalValue := (invoice.products.map (fun p => p.price * p.quantity)).sum
      if totalValue ≤ 0 then ["Total invoice value must be greater than 0"] else []
    else []
  dateErrors ++ totalErrors

/-- `validateProducts` (transform-service.ts), errors only: per-product
name, positive price and quantity, VAT percentage range; the length and
magnitude checks only push warnings. -/
def validateProducts (products : List OblioProduct) : List String :=
  (products.enum.map (fun p =>
    let productNum := toString (p.1 + 1)
    (if p.2.name == "" || jsTrim p.2.name == "" then
      ["Product " ++ productNum ++ ": Name is required"] else []) ++
    (if p.2.price ≤ 0 then
      ["Product " ++ productNum ++ ": Price must be greater than 0"] else []) ++
    (if p.2.quantity ≤ 0 then
      ["Product " ++ productNum ++ ": Quantity must be greater than 0"] else []) ++
    (match p.2.vatPercentage with
     | some v =>
       if v < 0 || v > 100 then
         ["Product " ++ productNum ++ ": VAT percentage must be between 0 and 100"]
       else []
     | none => []))).flatten

/-- `validateTransformedData` (transform-service.ts): the four error
passes in source order; valid iff no error was pushed. -/
def validateTransformedData (invoice : OblioInvoiceRequest) : ValidationResult :=
  let errors :=
    validateRequiredFields invoice ++
    validateFormats invoice ++
    validateBusinessRules invoice ++
    validateProducts invoice.products
  { isValid := errors.isEmpty, errors := errors }

end TransformService

/-- The `data` block of `OblioInvoiceResponse` (models/oblio.ts). -/
structure OblioInvoiceData where
  seriesName : String
  number : String
  link : String
deriving DecidableEq

/-- `OblioInvoiceResponse` (models/oblio.ts): what the accounting
client's `createInvoice` resolves with. The document link lives at
`data.link`; the interface declares no top-level `link` field. -/
structure OblioInvoiceResponse where
  status : Int
  statusMessage : String
  data : OblioInvoiceData
deriving DecidableEq

/-- JavaScript property access `oblioInvoice.link` as performed at
sync-service.ts line 247. `OblioInvoiceResponse` declares no top-level
`link` field — the link lives at `data.link` — so on any value of the
declared response type this access yields `undefined`. -/
def OblioInvoiceResponse.topLevelLink (_ : OblioInvoiceResponse) : Option String :=
  none

/-- `SyncError` (models/common.ts). -/
structure SyncError where
  orderId : String
  errorCode : String
  message : String
  timestamp : Nat
deriving DecidableEq

/-- `SyncResult` (models/common.ts). -/
structure SyncResult where
  syncId : String
  totalOrders : Nat
  successCount : Nat
  failureCount : Nat
  errors : List SyncError
deriving DecidableEq

/-- The `oblio` block of the encrypted configuration, the fields the
orchestrator reads. -/
structure OblioConfig where
  cif : String
  workStation : Int
deriving DecidableEq

/-- `EncryptedConfig` as the orchestrator checks it: `!config.oblio`
guards a possibly missing block. -/
structure EncryptedConfig where
  oblio : Option OblioConfig
deriving DecidableEq

/-- A call the orchestrator makes to one of the two remote clients. -/
inductive RemoteCall where
  | createInvoice (request : OblioInvoiceRequest)
  | sendInvoiceLinkToOrder (packageId : Nat) (link : String)
deriving DecidableEq

/-- Ambient environment of one orchestrator operation: the clock
(`Date.now()` in epoch ms and the two transform date strings derived
from it) and the two remote clients as response functions; a client
rejection is `Except.error` carrying the thrown error's message. -/
structure SyncEnv where
  now : Nat
  issueDate : String
  dueDate : String
  createInvoice : OblioInvoiceRequest → Except String OblioInvoiceResponse
  sendInvoiceLinkToOrder : Nat → String → Except String Unit

namespace InvoiceSyncService

/-- `calculateBackoffDelay` (sync-service.ts): base delay 2 s doubled
per attempt, capped at 300 s. `Math.pow` and `Math.min` are exact on
this range, and above the cap both sides saturate to 300. -/
def calculateBackoffDelay (attempt : Nat) : Nat :=
  min (2 * 2 ^ (attempt - 1)) 300

/-- Contiguous-sublist test over character lists. -/
def listIsInfix (needle : List Char) : List Char → Bool
  | [] => needle.isEmpty
  | c :: rest => needle.isPrefixOf (c :: rest) || listIsInfix needle rest

/-- JavaScript `String.prototype.includes`. -/
def jsIncludes (hay needle : String) : Bool :=
  listIsInfix needle.data hay.data

/-- JavaScript `String.prototype.toLowerCase`; the substrings the
classifier matches are ASCII, where `Char.toLower` agrees with it. -/
def jsToLower (s : String) : String :=
  ⟨s.data.map Char.toLower⟩

/-- `extractErrorCode` (sync-service.ts): buckets the lower-cased error
text by substring into the five retryable codes, anything else is
NON_RETRYABLE_ERROR. -/
def extractErrorCode (errorMessage : String) : String :=
  let message := jsToLower errorMessage
  if jsIncludes message "network" || jsIncludes message "connection" ||
     jsIncludes message "fetch" then "NETWORK_ERROR"
  else if jsIncludes message "rate limit" || jsIncludes message "too many requests" ||
     jsIncludes message "429" then "RATE_LIMIT"
  else if jsIncludes message "server error" || jsIncludes message "500" ||
     jsIncludes message "502" || jsIncludes message "503" then "SERVER_ERROR"
  else if jsIncludes message "timeout" || jsIncludes message "timed out" then
    "TIMEOUT_ERROR"
  else if jsIncludes message "temporary" || jsIncludes message "unavailable" then
    "TEMPORARY_ERROR"
  else "NON_RETRYABLE_ERROR"

/-- The `retryableErrors` list of the retry configuration built in
`retryFailedInvoice` (sync-service.ts). -/
def retryableErrors : List String :=
  ["NETWORK_ERROR", "RATE_LIMIT", "SERVER_ERROR", "TIMEOUT_ERROR", "TEMPORARY_ERROR"]

/-- `checkInvoiceLinkStatus` (sync-service.ts): a package has an invoice
link iff a processed record exists for its id and that record is
completed. The catch branch (lookup error treated as no link) cannot
fire: the embedded storage read is total. -/
def checkInvoiceLinkStatus (store : Option SessionData)
    (shipmentPackage : TrendyolShipmentPackage) : Bool :=
  match BrowserStorageService.getProcessedInvoice store (toString shipmentPackage.id) with
  | some processedInvoice => processedInvoice.status == .completed
  | none => false

/-- `filterPackagesWithoutInvoices` (sync-service.ts): drop packages in
the Awaiting status, drop packages that already have an invoice link. -/
def filterPackagesWithoutInvoices (store : Option SessionData)
    (packages : List TrendyolShipmentPackage) : List TrendyolShipmentPackage :=
  packages.filter (fun pkg =>
    if pkg.status == "Awaiting" then false
    else !(checkInvoiceLinkStatus store pkg))

/-- The transform configuration `processSelectedPackages` and
`retryFailedInvoice` build (sync-service.ts): credentials from the
config, fixed FACT series, Romanian language, 19 % default VAT. -/
def transformConfigOf (c : OblioConfig) : TransformConfig :=
  { cif := c.cif
    workStation := c.workStation
    seriesName := "FACT"
    language := "RO"
    defaultVatPercentage := 19
    defaultMeasuringUnit := "buc" }

/-- Accumulator of the per-package loop of `processSelectedPackages`:
the evolving store, the remote calls made so far and the tallies. -/
structure BatchState where
  store : Option SessionData
  calls : List RemoteCall
  successCount : Nat
  failureCount : Nat
  errors : List SyncError
deriving Inhabited

/-- The try-block body for one package inside `processSelectedPackages`
(sync-service.ts lines 222-290), after the pending record was written:
validate, transform, validate, create the invoice remotely, check the
top-level `link` property of the response, send the link, mark
completed. Returns the remote calls made and either the store after
the completed-update or the thrown error's message. -/
def attemptPackage (env : SyncEnv) (tc : TransformConfig)
    (store : Option SessionData) (pkg : TrendyolShipmentPackage)
    (packageId : String) : List RemoteCall × Except String (Option SessionData) :=
  let packageValidation := TransformService.validateTrendyolPackage pkg
  if !packageValidation.isValid then
    ([], .error ("Package validation failed: " ++
      String.intercalate ", " packageValidation.errors))
  else
    let oblioInvoiceRequest :=
      TransformService.trendyolPackageToOblioInvoice tc env.issueDate env.dueDate pkg
    let invoiceValidation := TransformService.validateTransformedData oblioInvoiceRequest
    if !invoiceValidation.isValid then
      ([], .error ("Invoice validation failed: " ++
        String.intercalate ", " invoiceValidation.errors))
    else
      match env.createInvoice oblioInvoiceRequest with
      | .error msg => ([.createInvoice oblioInvoiceRequest], .error msg)
      | .ok oblioInvoice =>
        if oblioInvoice.topLevelLink.getD "" == "" then
          ([.createInvoice oblioInvoiceRequest],
           .error "Oblio invoice created but no link returned")
        else
          match env.sendInvoiceLinkToOrder pkg.id oblioInvoice.data.link with
          | .error msg =>
            ([.createInvoice oblioInvoiceRequest,
              .sendInvoiceLinkToOrder pkg.id oblioInvoice.data.link], .error msg)
          | .ok _ =>
            let store2 := BrowserStorageService.updateProcessedInvoice store packageId
              { oblioInvoiceId :=
                  some (oblioInvoice.data.seriesName ++ oblioInvoice.data.number)
                status := some .completed
                processedAt := some env.now }
            ([.createInvoice oblioInvoiceRequest,
              .sendInvoiceLinkToOrder pkg.id oblioInvoice.data.link], .ok store2)

/-- One iteration of the package loop of `processSelectedPackages`
(sync-service.ts lines 204-323): write the pending record, run the
try-block, and on a thrown error mark the record failed and collect a
structured sync error (every error thrown in the loop is an `Error`,
whose `name` is the non-empty string Error, so `errorCode` is always
that name). -/
def processOnePackage (env : SyncEnv) (tc : TransformConfig)
    (st : BatchState) (pkg : TrendyolShipmentPackage) : BatchState :=
  let packageId := toString pkg.id
  let store1 := BrowserStorageService.addProcessedInvoice st.store
    { trendyolOrderId := packageId, status := .pending, processedAt := env.now }
  match attemptPackage env tc store1 pkg packageId with
  | (newCalls, .ok store2) =>
    { store := store2
      calls := st.calls ++ newCalls
      successCount := st.successCount + 1
      failureCount := st.failureCount
      errors := st.errors }
  | (newCalls, .error errorMessage) =>
    let store2 := BrowserStorageService.updateProcessedInvoice store1 packageId
      { status := some .failed
        errorMessage := some errorMessage
        processedAt := some env.now }
    { store := store2
      calls := st.calls ++ newCalls
      successCount := st.successCount
      failureCount := st.failureCount + 1
      errors := st.errors ++
        [{ orderId := packageId, errorCode := "Error",
           message := errorMessage, timestamp := env.now }] }

/-- `processSelectedPackages` (sync-service.ts): session precondition,
intersection of the requested ids with the working set, configuration
precondition, then the sequential per-package loop; returns the final
store, the remote calls made, and the aggregate result or the thrown
precondition error. -/
def processSelectedPackages (env : SyncEnv) (config : Option EncryptedConfig)
    (store : Option SessionData) (packageIds : List String) :
    Option SessionData × List RemoteCall × Except String SyncResult :=
  match BrowserStorageService.getSessionData store with
  | none =>
    (store, [],
     .error "No shipment packages found in session. Please fetch packages first.")
  | some sessionData =>
    let packagesToProcess := sessionData.currentShipmentPackages.filter
      (fun pkg => packageIds.contains (toString pkg.id))
    if packagesToProcess.isEmpty then
      (store, [], .error "No matching packages found for the provided IDs")
    else
      match config with
      | none =>
        (store, [],
         .error "Oblio configuration not found. Please configure API credentials first.")
      | some cfg =>
        match cfg.oblio with
        | none =>
          (store, [],
           .error "Oblio configuration not found. Please configure API credentials first.")
        | some oblioCfg =>
          let tc := transformConfigOf oblioCfg
          let final := packagesToProcess.foldl (processOnePackage env tc)
            { store := store, calls := [], successCount := 0,
              failureCount := 0, errors := [] }
          (final.store, final.calls,
           .ok { syncId := "sync-" ++ toString env.now
                 totalOrders := packagesToProcess.length
                 successCount := final.successCount
                 failureCount := final.failureCount
                 errors := final.errors })

/-- The retry-tracking update written by `retryFailedInvoice` on
acceptance (sync-service.ts lines 419-425): status back to pending,
incremented retry count, fresh `lastRetryAt`, scheduled `nextRetryAt`.
The source passes `errorMessage: undefined` there, commented as
clearing the previous error message; in JavaScript that property is
indistinguishable from an absent one, so it is modelled as `none` and
the storage update keeps the existing message. -/
def retryAcceptUpdate (now newRetryCount nextRetryAtVal : Nat) :
    BrowserStorageService.ProcessedInvoiceUpdate :=
  { status := some .pending
    retryCount := some newRetryCount
    lastRetryAt := some now
    nextRetryAt := some nextRetryAtVal
    errorMessage := none }

/-- The try-block body of `retryFailedInvoice` (sync-service.ts lines
451-507), after the acceptance update: validate, transform, validate,
create the invoice remotely, check `oblioInvoice.data?.link` (the
nested link, unlike the batch path), send the link, mark completed
(with `nextRetryAt: undefined`, which the storage update keeps).
Returns the remote calls made and either the store after the
completed-update or the thrown error's message. -/
def retryAttempt (env : SyncEnv) (tc : TransformConfig)
    (store : Option SessionData) (pkg : TrendyolShipmentPackage)
    (packageId : String) : List RemoteCall × Except String (Option SessionData) :=
  let packageValidation := TransformService.validateTrendyolPackage pkg
  if !packageValidation.isValid then
    ([], .error ("Package validation failed: " ++
      String.intercalate ", " packageValidation.errors))
  else
    let oblioInvoiceRequest :=
      TransformService.trendyolPackageToOblioInvoice tc env.issueDate env.dueDate pkg
    let invoiceValidation := TransformService.validateTransformedData oblioInvoiceRequest
    if !invoiceValidation.isValid then
      ([], .error ("Invoice validation failed: " ++
        String.intercalate ", " invoiceValidation.errors))
    else
      match env.createInvoice oblioInvoiceRequest with
      | .error msg => ([.createInvoice oblioInvoiceRequest], .error msg)
      | .ok oblioInvoice =>
        if oblioInvoice.data.link == "" then
          ([.createInvoice oblioInvoiceRequest],
           .error "Oblio invoice created but no link returned")
        else
          match env.sendInvoiceLinkToOrder pkg.id oblioInvoice.data.link with
          | .error msg =>
            ([.createInvoice oblioInvoiceRequest,
              .sendInvoiceLinkToOrder pkg.id oblioInvoice.data.link], .error msg)
          | .ok _ =>
            let store2 := BrowserStorageService.updateProcessedInvoice store packageId
              { oblioInvoiceId :=
                  some (oblioInvoice.data.seriesName ++ oblioInvoice.data.number)
                status := some .completed
                processedAt := some env.now
                nextRetryAt := none }
            ([.createInvoice oblioInvoiceRequest,
              .sendInvoiceLinkToOrder pkg.id oblioInvoice.data.link], .ok store2)

/-- `retryFailedInvoice` (sync-service.ts lines 348-550): gating checks
in source order (record exists, status failed, retry budget, backoff
window, retryable error class, session data, package present), then the
acceptance update and the re-run of the pipeline, catching a thrown
error by marking the record failed and rethrowing. `maxRetries` is the
stored auto-retry count the service reads from the settings. -/
def retryFailedInvoice (env : SyncEnv) (config : Option EncryptedConfig)
    (maxRetries : Nat) (store : Option SessionData) (packageId : String) :
    Option SessionData × List RemoteCall × Except String Unit :=
  match BrowserStorageService.getProcessedInvoice store packageId with
  | none =>
    (store, [], .error ("No processed invoice record found for package " ++ packageId))
  | some processedInvoice =>
    if processedInvoice.status ≠ .failed then
      (store, [], .error ("Cannot retry invoice " ++ packageId ++
        " - current status is " ++ processedInvoice.status.toStr))
    else
      let currentRetryCount := processedInvoice.retryCount.getD 0
      if currentRetryCount ≥ maxRetries then
        (store, [], .error ("Maximum retry attempts (" ++ toString maxRetries ++
          ") exceeded for package " ++ packageId))
      else
        let mustWait : Option Nat :=
          match processedInvoice.nextRetryAt with
          | some nextRetryTime =>
            if env.now < nextRetryTime then
              some ((nextRetryTime - env.now + 999) / 1000)
            else none
          | none => none
        match mustWait with
        | some waitTime =>
          (store, [], .error ("Must wait " ++ toString waitTime ++
            " seconds before retrying package " ++ packageId))
        | none =>
          let errorCode := extractErrorCode (processedInvoice.errorMessage.getD "")
          if !(retryableErrors.contains errorCode) then
            (store, [], .error ("Error for package " ++ packageId ++
              " is not retryable: " ++ errorCode))
          else
            match BrowserStorageService.getSessionData store with
            | none =>
              (store, [],
               .error "No shipment packages found in session. Please fetch packages first.")
            | some sessionData =>
              match sessionData.currentShipmentPackages.find?
                  (fun pkg => toString pkg.id == packageId) with
              | none =>
                (store, [], .error ("Package " ++ packageId ++
                  " not found in current session data"))
              | some packageToRetry =>
                let newRetryCount := currentRetryCount + 1
                let backoffDelay := calculateBackoffDelay newRetryCount
                let nextRetryAtVal := env.now + backoffDelay * 1000
                let store1 := BrowserStorageService.updateProcessedInvoice store
                  packageId (retryAcceptUpdate env.now newRetryCount nextRetryAtVal)
                let failWith := fun (calls : List RemoteCall) (msg : String) =>
                  let store2 := BrowserStorageService.updateProcessedInvoice store1
                    packageId
                    { status := some .failed
                      errorMessage := some msg
                      processedAt := some env.now }
                  (store2, calls, (Except.error msg : Except String Unit))
                match config with
                | none =>
                  failWith []
                    "Oblio configuration not found. Please configure API credentials first."
                | some cfg =>
                  match cfg.oblio with
                  | none =>
                    failWith []
                      "Oblio configuration not found. Please configure API credentials first."
                  | some oblioCfg =>
                    let tc := transformConfigOf oblioCfg
                    match retryAttempt env tc store1 packageToRetry packageId with
                    | (calls, .ok store2) => (store2, calls, .ok ())
                    | (calls, .error msg) => failWith calls msg

end InvoiceSyncService


/-! Concrete fixtures used by the closed theorems: one well-formed
package (it passes both validation passes), a configuration, a session
store holding it, a successful accounting-client response carrying the
document link at `data.link`, and client environments. -/

/-- Billing address of the fixture package. -/
def sampleAddress : InvoiceAddress :=
  { firstName := "Ion", lastName := "Pop", company := "", address1 := "Str. A 1",
    address2 := "", neighborhood := "", district := "", city := "Bucuresti",
    countryCode := "RO" }

/-- One order line: total 100, VAT base 84.03, quantity 1. -/
def sampleLine : PackageLine :=
  { quantity := 1, productSize := "", merchantSku := "", productName := "Item",
    amount := 100, currencyCode := "RON", productColor := "", sku := "SKU1",
    vatBaseAmount := 8403/100, barcode := "" }

/-- The fixture shipment package, id 1, not in the Awaiting status. -/
def samplePackage : TrendyolShipmentPackage :=
  { id := 1, packageNumber := "PKG1", orderId := "ORD1", status := "Created",
    taxNumber := "", invoiceAddress := sampleAddress,
    customerInfo := { email := "a@b.co", gsm := "" }, lines := [sampleLine] }

/-- A saved configuration with an oblio block. -/
def sampleConfig : Option EncryptedConfig :=
  some { oblio := some { cif := "RO12345678", workStation := 1 } }

/-- The transform configuration the orchestrator builds from
`sampleConfig`. -/
def tcSample : TransformConfig :=
  InvoiceSyncService.transformConfigOf { cif := "RO12345678", workStation := 1 }

/-- Session store holding the fixture package and no records yet. -/
def sampleStore : Option SessionData :=
  some { currentShipmentPackages := [samplePackage], processedInvoices := [] }

/-- A successful `createInvoice` response: the document link is a
non-empty string at `data.link`, exactly as the repository test
fixtures mock it. -/
def sampleResponse : OblioInvoiceResponse :=
  { status := 200, statusMessage := "Success",
    data := { seriesName := "FACT", number := "001",
              link := "https://oblio.eu/invoice/123" } }

/-- Environment in which both remote clients resolve. -/
def okEnv : SyncEnv :=
  { now := 1700000000000, issueDate := "2024-01-01", dueDate := "2024-01-31",
    createInvoice := fun _ => .ok sampleResponse,
    sendInvoiceLinkToOrder := fun _ _ => .ok () }

/-- Environment in which `createInvoice` rejects with a network error. -/
def netFailEnv : SyncEnv :=
  { now := 1000, issueDate := "2024-01-01", dueDate := "2024-01-31",
    createInvoice := fun _ => .error "Network connection failed",
    sendInvoiceLinkToOrder := fun _ _ => .ok () }

/-- The `okEnv` clients at a later clock, used for the retry steps. -/
def retryEnv : SyncEnv :=
  { now := 2000, issueDate := "2024-01-01", dueDate := "2024-01-31",
    createInvoice := fun _ => .ok sampleResponse,
    sendInvoiceLinkToOrder := fun _ _ => .ok () }

/-- A failed record for the fixture package, carrying a retryable
network error message. -/
def failedRecord : ProcessedInvoice :=
  { trendyolOrderId := "1", status := .failed,
    errorMessage := some "Network connection failed", processedAt := 5 }

/-- Session store holding the fixture package and the failed record. -/
def failedStore : Option SessionData :=
  some { currentShipmentPackages := [samplePackage],
         processedInvoices := [failedRecord] }

/-- The invoice request the transform produces for `samplePackage`
under `tcSample` with the fixture dates (established by
`transform_sample`). -/
def sampleProduct : OblioProduct :=
  { name := "Item", code := some "SKU1", description := none, price := 100,
    measuringUnit := some "buc", currency := some "RON",
    vatPercentage := some (1901/100), vatIncluded := some true, quantity := 1,
    productType := some "produs" }

/-- The full transformed request for `samplePackage` (established by
`transform_sample`). -/
def sampleRequest : OblioInvoiceRequest :=
  { cif := "RO12345678",
    client := { cif := "", name := "Ion Pop", address := some "Str. A 1",
                city := some "Bucuresti", country := some "Romania",
                email := some "a@b.co", phone := some "",
                contact := some "Ion Pop", vatPayer := some false },
    issueDate := "2024-01-01", dueDate := "2024-01-31", currency := "RON",
    language := "RO", workStation := 1, seriesName := "FACT", useStock := 0,
    products := [sampleProduct],
    internalNote := some "Trendyol Order: ORD1, Package: PKG1",
    noticeNumber := some "PKG1" }

namespace BrowserStorageService

theorem find?_addToProcessedList (inv : ProcessedInvoice) (oid : String)
    (l : List ProcessedInvoice) :
    (addToProcessedList inv l).find? (fun r => r.trendyolOrderId == oid) =
      if inv.trendyolOrderId = oid then some inv
      else l.find? (fun r => r.trendyolOrderId == oid) := by
  induction l with
  | nil =>
    by_cases h : inv.trendyolOrderId = oid
    · rw [if_pos h]
      exact List.find?_cons_of_pos _ (by simpa using h)
    · rw [if_neg h]
      simp only [addToProcessedList]
      rw [List.find?_cons_of_neg _ (by simpa using h), List.find?_nil]
  | cons a rest ih =>
    simp only [addToProcessedList]
    by_cases ha : a.trendyolOrderId = inv.trendyolOrderId
    · rw [if_pos (by simpa using ha)]
      by_cases h : inv.trendyolOrderId = oid
      · rw [if_pos h, List.find?_cons_of_pos _ (by simpa using h)]
      · have ha2 : ¬ a.trendyolOrderId = oid := fun hc => h (ha.symm.trans hc)
        rw [if_neg h, List.find?_cons_of_neg _ (by simpa using h),
          List.find?_cons_of_neg _ (by simpa using ha2)]
    · rw [if_neg (by simpa using ha)]
      by_cases h2 : a.trendyolOrderId = oid
      · have hinv : ¬ inv.trendyolOrderId = oid := fun hc => ha (h2.trans hc.symm)
        rw [if_neg hinv, List.find?_cons_of_pos _ (by simpa using h2),
          List.find?_cons_of_pos _ (by simpa using h2)]
      · rw [List.find?_cons_of_neg _ (by simpa using h2), ih]
        by_cases h : inv.trendyolOrderId = oid
        · rw [if_pos h, if_pos h]
        · rw [if_neg h, if_neg h, List.find?_cons_of_neg _ (by simpa using h2)]

theorem getProcessedInvoice_add (store : Option SessionData)
    (inv : ProcessedInvoice) (oid : String) :
    getProcessedInvoice (addProcessedInvoice store inv) oid =
      if inv.trendyolOrderId = oid then some inv
      else getProcessedInvoice store oid := by
  cases store with
  | none =>
    have hdef : getProcessedInvoice (addProcessedInvoice none inv) oid =
        (addToProcessedList inv []).find? (fun r => r.trendyolOrderId == oid) := rfl
    rw [hdef, find?_addToProcessedList, List.find?_nil]
    rfl
  | some sd =>
    have hdef : getProcessedInvoice (addProcessedInvoice (some sd) inv) oid =
        (addToProcessedList inv sd.processedInvoices).find?
          (fun r => r.trendyolOrderId == oid) := rfl
    rw [hdef, find?_addToProcessedList]
    rfl

theorem updateInProcessedList_none (oid : String) (u : ProcessedInvoiceUpdate)
    (l : List ProcessedInvoice)
    (h : l.find? (fun r => r.trendyolOrderId == oid) = none) :
    updateInProcessedList oid u l = none := by
  induction l with
  | nil => rfl
  | cons a rest ih =>
    by_cases ha : a.trendyolOrderId = oid
    · rw [List.find?_cons_of_pos _ (by simpa using ha)] at h
      exact absurd h (by simp)
    · rw [List.find?_cons_of_neg _ (by simpa using ha)] at h
      simp only [updateInProcessedList]
      rw [if_neg (by simpa using ha), ih h]
      rfl

theorem find?_updateInProcessedList_self (oid : String) (u : ProcessedInvoiceUpdate)
    (l : List ProcessedInvoice) :
    (updateInProcessedList oid u l).map
        (fun l2 => l2.find? (fun r => r.trendyolOrderId == oid)) =
      (l.find? (fun r => r.trendyolOrderId == oid)).map
        (fun r => some (applyInvoiceUpdate u r)) := by
  induction l with
  | nil => rfl
  | cons a rest ih =>
    simp only [updateInProcessedList]
    by_cases ha : a.trendyolOrderId = oid
    · have hid : (applyInvoiceUpdate u a).trendyolOrderId = oid := ha
      rw [if_pos (by simpa using ha), List.find?_cons_of_pos _ (by simpa using ha)]
      simp only [Option.map_some']
      rw [List.find?_cons_of_pos _ (by simpa using hid)]
    · rw [if_neg (by simpa using ha), List.find?_cons_of_neg _ (by simpa using ha),
        ← ih]
      cases h2 : updateInProcessedList oid u rest with
      | none => rfl
      | some l2 =>
        simp only [Option.map_some']
        rw [List.find?_cons_of_neg _ (by simpa using ha)]

theorem find?_updateInProcessedList_other (pid oid : String)
    (u : ProcessedInvoiceUpdate) (l : List ProcessedInvoice) (hne : pid ≠ oid)
    (l2 : List ProcessedInvoice) (h : updateInProcessedList pid u l = some l2) :
    l2.find? (fun r => r.trendyolOrderId == oid) =
      l.find? (fun r => r.trendyolOrderId == oid) := by
  induction l generalizing l2 with
  | nil => exact absurd h (by simp [updateInProcessedList])
  | cons a rest ih =>
    simp only [updateInProcessedList] at h
    by_cases ha : a.trendyolOrderId = pid
    · rw [if_pos (by simpa using ha)] at h
      have h3 := Option.some.inj h
      have hao : ¬ a.trendyolOrderId = oid := fun hc => hne (ha.symm.trans hc)
      have hao2 : ¬ (applyInvoiceUpdate u a).trendyolOrderId = oid := hao
      rw [← h3, List.find?_cons_of_neg _ (by simpa using hao2),
        List.find?_cons_of_neg _ (by simpa using hao)]
    · rw [if_neg (by simpa using ha)] at h
      cases h2 : updateInProcessedList pid u rest with
      | none =>
        rw [h2] at h
        exact absurd h (by simp)
      | some l3 =>
        rw [h2] at h
        simp only [Option.map_some'] at h
        have h3 := Option.some.inj h
        rw [← h3]
        by_cases h4 : a.trendyolOrderId = oid
        · rw [List.find?_cons_of_pos _ (by simpa using h4),
            List.find?_cons_of_pos _ (by simpa using h4)]
        · rw [List.find?_cons_of_neg _ (by simpa using h4),
            List.find?_cons_of_neg _ (by simpa using h4), ih l3 h2]

theorem getProcessedInvoice_update_self (store : Option SessionData)
    (oid : String) (u : ProcessedInvoiceUpdate) :
    getProcessedInvoice (updateProcessedInvoice store oid u) oid =
      (getProcessedInvoice store oid).map (applyInvoiceUpdate u) := by
  cases store with
  | none => rfl
  | some sd =>
    have h := find?_updateInProcessedList_self oid u sd.processedInvoices
    cases h2 : updateInProcessedList oid u sd.processedInvoices with
    | none =>
      rw [h2] at h
      have hstore : updateProcessedInvoice (some sd) oid u = some sd := by
        show (match updateInProcessedList oid u sd.processedInvoices with
          | none => some sd
          | some l => some { sd with processedInvoices := l }) = some sd
        rw [h2]
      rw [hstore]
      cases h3 : sd.processedInvoices.find? (fun r => r.trendyolOrderId == oid) with
      | none => simp [getProcessedInvoice, h3]
      | some r =>
        rw [h3] at h
        exact absurd h.symm (by simp)
    | some l2 =>
      rw [h2] at h
      simp only [Option.map_some'] at h
      have hstore : updateProcessedInvoice (some sd) oid u =
          some { sd with processedInvoices := l2 } := by
        show (match updateInProcessedList oid u sd.processedInvoices with
          | none => some sd
          | some l => some { sd with processedInvoices := l }) = _
        rw [h2]
      rw [hstore]
      cases h3 : sd.processedInvoices.find? (fun r => r.trendyolOrderId == oid) with
      | none =>
        rw [h3] at h
        exact absurd h (by simp)
      | some r =>
        rw [h3] at h
        simp only [Option.map_some', Option.some.injEq] at h
        show l2.find? (fun r => r.trendyolOrderId == oid) = _
        rw [h]
        simp [getProcessedInvoice, h3]

theorem getProcessedInvoice_update_other (store : Option SessionData)
    (pid oid : String) (u : ProcessedInvoiceUpdate) (hne : pid ≠ oid) :
    getProcessedInvoice (updateProcessedInvoice store pid u) oid =
      getProcessedInvoice store oid := by
  cases store with
  | none => rfl
  | some sd =>
    cases h2 : updateInProcessedList pid u sd.processedInvoices with
    | none =>
      have hstore : updateProcessedInvoice (some sd) pid u = some sd := by
        show (match updateInProcessedList pid u sd.processedInvoices with
          | none => some sd
          | some l => some { sd with processedInvoices := l }) = some sd
        rw [h2]
      rw [hstore]
    | some l2 =>
      have hstore : updateProcessedInvoice (some sd) pid u =
          some { sd with processedInvoices := l2 } := by
        show (match updateInProcessedList pid u sd.processedInvoices with
          | none => some sd
          | some l => some { sd with processedInvoices := l }) = _
        rw [h2]
      rw [hstore]
      show l2.find? (fun r => r.trendyolOrderId == oid) = _
      rw [find?_updateInProcessedList_other pid oid u sd.processedInvoices hne l2 h2]
      rfl

end BrowserStorageService

namespace InvoiceSyncService

theorem attemptPackage_ok (env : SyncEnv) (tc : TransformConfig)
    (store : Option SessionData) (pkg : TrendyolShipmentPackage)
    (packageId : String) (calls : List RemoteCall) (s2 : Option SessionData)
    (h : attemptPackage env tc store pkg packageId = (calls, Except.ok s2)) :
    ∃ u : BrowserStorageService.ProcessedInvoiceUpdate,
      u.status = some InvoiceStatus.completed ∧
        s2 = BrowserStorageService.updateProcessedInvoice store packageId u := by
  rw [attemptPackage] at h
  split at h
  · exact absurd h (by simp)
  · dsimp only at h
    split at h
    · exact absurd h (by simp)
    · split at h
      · exact absurd h (by simp)
      · split at h
        · exact absurd h (by simp)
        · split at h
          · exact absurd h (by simp)
          · rw [Prod.mk.injEq] at h
            refine ⟨_, ?_, (Except.ok.inj h.2).symm⟩
            rfl

theorem retryAttempt_ok (env : SyncEnv) (tc : TransformConfig)
    (store : Option SessionData) (pkg : TrendyolShipmentPackage)
    (packageId : String) (calls : List RemoteCall) (s2 : Option SessionData)
    (h : retryAttempt env tc store pkg packageId = (calls, Except.ok s2)) :
    ∃ u : BrowserStorageService.ProcessedInvoiceUpdate,
      u.status = some InvoiceStatus.completed ∧
        s2 = BrowserStorageService.updateProcessedInvoice store packageId u := by
  rw [retryAttempt] at h
  split at h
  · exact absurd h (by simp)
  · dsimp only at h
    split at h
    · exact absurd h (by simp)
    · split at h
      · exact absurd h (by simp)
      · split at h
        · exact absurd h (by simp)
        · split at h
          · exact absurd h (by simp)
          · rw [Prod.mk.injEq] at h
            refine ⟨_, ?_, (Except.ok.inj h.2).symm⟩
            rfl

theorem processOnePackage_other (env : SyncEnv) (tc : TransformConfig)
    (st : BatchState) (pkg : TrendyolShipmentPackage) (oid : String)
    (hne : toString pkg.id ≠ oid) :
    BrowserStorageService.getProcessedInvoice
        (processOnePackage env tc st pkg).store oid =
      BrowserStorageService.getProcessedInvoice st.store oid := by
  simp only [processOnePackage]
  rcases hA : attemptPackage env tc
      (BrowserStorageService.addProcessedInvoice st.store
        { trendyolOrderId := toString pkg.id, status := .pending,
          processedAt := env.now }) pkg (toString pkg.id) with ⟨calls, outcome⟩
  cases outcome with
  | ok s2 =>
    dsimp only
    obtain ⟨u, _, hs2⟩ := attemptPackage_ok env tc _ pkg (toString pkg.id) calls s2 hA
    simp only [hs2]
    rw [BrowserStorageService.getProcessedInvoice_update_other _ _ _ _ hne,
      BrowserStorageService.getProcessedInvoice_add]
    rw [if_neg hne]
  | error msg =>
    dsimp only
    rw [BrowserStorageService.getProcessedInvoice_update_other _ _ _ _ hne,
      BrowserStorageService.getProcessedInvoice_add]
    rw [if_neg hne]

theorem processOnePackage_self (env : SyncEnv) (tc : TransformConfig)
    (st : BatchState) (pkg : TrendyolShipmentPackage) :
    ∃ r2, BrowserStorageService.getProcessedInvoice
        (processOnePackage env tc st pkg).store (toString pkg.id) = some r2 ∧
      (r2.status = InvoiceStatus.completed ∨ r2.status = InvoiceStatus.failed) := by
  simp only [processOnePackage]
  rcases hA : attemptPackage env tc
      (BrowserStorageService.addProcessedInvoice st.store
        { trendyolOrderId := toString pkg.id, status := .pending,
          processedAt := env.now }) pkg (toString pkg.id) with ⟨calls, outcome⟩
  have hadd : BrowserStorageService.getProcessedInvoice
      (BrowserStorageService.addProcessedInvoice st.store
        { trendyolOrderId := toString pkg.id, status := .pending,
          processedAt := env.now }) (toString pkg.id) =
      some { trendyolOrderId := toString pkg.id, status := .pending,
             processedAt := env.now } := by
    rw [BrowserStorageService.getProcessedInvoice_add, if_pos rfl]
  cases outcome with
  | ok s2 =>
    dsimp only
    obtain ⟨u, hu, hs2⟩ := attemptPackage_ok env tc _ pkg (toString pkg.id) calls s2 hA
    simp only [hs2]
    rw [BrowserStorageService.getProcessedInvoice_update_self, hadd]
    refine ⟨_, rfl, Or.inl ?_⟩
    simp [BrowserStorageService.applyInvoiceUpdate, hu]
  | error msg =>
    dsimp only
    rw [BrowserStorageService.getProcessedInvoice_update_self, hadd]
    refine ⟨_, rfl, Or.inr ?_⟩
    simp [BrowserStorageService.applyInvoiceUpdate]

theorem processOnePackage_tally (env : SyncEnv) (tc : TransformConfig)
    (st : BatchState) (pkg : TrendyolShipmentPackage)
    (hinv : st.errors.length = st.failureCount) :
    (processOnePackage env tc st pkg).errors.length =
        (processOnePackage env tc st pkg).failureCount ∧
      (processOnePackage env tc st pkg).successCount +
          (processOnePackage env tc st pkg).failureCount =
        st.successCount + st.failureCount + 1 := by
  simp only [processOnePackage]
  rcases hA : attemptPackage env tc
      (BrowserStorageService.addProcessedInvoice st.store
        { trendyolOrderId := toString pkg.id, status := .pending,
          processedAt := env.now }) pkg (toString pkg.id) with ⟨calls, outcome⟩
  cases outcome with
  | ok s2 =>
    dsimp only
    exact ⟨hinv, by omega⟩
  | error msg =>
    refine ⟨?_, ?_⟩
    · dsimp only
      simp [hinv]
    · dsimp only
      omega

theorem processOnePackage_errors (env : SyncEnv) (tc : TransformConfig)
    (st : BatchState) (pkg : TrendyolShipmentPackage) (e : SyncError)
    (he : e ∈ (processOnePackage env tc st pkg).errors) :
    e ∈ st.errors ∨ e.orderId = toString pkg.id := by
  simp only [processOnePackage] at he
  rcases hA : attemptPackage env tc
      (BrowserStorageService.addProcessedInvoice st.store
        { trendyolOrderId := toString pkg.id, status := .pending,
          processedAt := env.now }) pkg (toString pkg.id) with ⟨calls, outcome⟩
  rw [hA] at he
  cases outcome with
  | ok s2 => exact Or.inl he
  | error msg =>
    dsimp only at he
    simp only [List.mem_append, List.mem_singleton] at he
    cases he with
    | inl h => exact Or.inl h
    | inr h => exact Or.inr (by rw [h])

theorem foldl_tally (env : SyncEnv) (tc : TransformConfig)
    (l : List TrendyolShipmentPackage) :
    ∀ st : BatchState, st.errors.length = st.failureCount →
      (l.foldl (processOnePackage env tc) st).errors.length =
          (l.foldl (processOnePackage env tc) st).failureCount ∧
        (l.foldl (processOnePackage env tc) st).successCount +
            (l.foldl (processOnePackage env tc) st).failureCount =
          st.successCount + st.failureCount + l.length := by
  induction l with
  | nil =>
    intro st h
    exact ⟨h, by simp⟩
  | cons p rest ih =>
    intro st h
    obtain ⟨h1, h2⟩ := processOnePackage_tally env tc st p h
    obtain ⟨h3, h4⟩ := ih (processOnePackage env tc st p) h1
    simp only [List.foldl_cons, List.length_cons]
    refine ⟨h3, ?_⟩
    omega

theorem foldl_errors (env : SyncEnv) (tc : TransformConfig)
    (l : List TrendyolShipmentPackage) :
    ∀ (st : BatchState) (e : SyncError),
      e ∈ (l.foldl (processOnePackage env tc) st).errors →
        e ∈ st.errors ∨ ∃ p ∈ l, e.orderId = toString p.id := by
  induction l with
  | nil =>
    intro st e he
    exact Or.inl he
  | cons p rest ih =>
    intro st e he
    simp only [List.foldl_cons] at he
    cases ih (processOnePackage env tc st p) e he with
    | inl h =>
      cases processOnePackage_errors env tc st p e h with
      | inl h2 => exact Or.inl h2
      | inr h2 => exact Or.inr ⟨p, List.mem_cons_self p rest, h2⟩
    | inr h =>
      obtain ⟨q, hq, heq⟩ := h
      exact Or.inr ⟨q, List.mem_cons_of_mem p hq, heq⟩

theorem foldl_records (env : SyncEnv) (tc : TransformConfig)
    (l : List TrendyolShipmentPackage) :
    ∀ (st : BatchState) (oid : String),
      ((∀ p ∈ l, toString p.id ≠ oid) →
        BrowserStorageService.getProcessedInvoice
            (l.foldl (processOnePackage env tc) st).store oid =
          BrowserStorageService.getProcessedInvoice st.store oid) ∧
      ((∃ p ∈ l, toString p.id = oid) →
        ∃ r2, BrowserStorageService.getProcessedInvoice
            (l.foldl (processOnePackage env tc) st).store oid = some r2 ∧
          (r2.status = InvoiceStatus.completed ∨ r2.status = InvoiceStatus.failed)) := by
  induction l with
  | nil =>
    intro st oid
    refine ⟨fun _ => rfl, fun hex => ?_⟩
    obtain ⟨p, hp, _⟩ := hex
    exact absurd hp (List.not_mem_nil p)
  | cons p rest ih =>
    intro st oid
    constructor
    · intro hno
      simp only [List.foldl_cons]
      have hp := hno p (List.mem_cons_self p rest)
      rw [(ih (processOnePackage env tc st p) oid).1
        (fun q hq => hno q (List.mem_cons_of_mem p hq))]
      exact processOnePackage_other env tc st p oid hp
    · intro hex
      simp only [List.foldl_cons]
      by_cases hrest : ∃ q ∈ rest, toString q.id = oid
      · exact (ih (processOnePackage env tc st p) oid).2 hrest
      · push_neg at hrest
        obtain ⟨q, hq, heq⟩ := hex
        cases List.mem_cons.mp hq with
        | inl hqp =>
          have heqp : toString p.id = oid := hqp ▸ heq
          rw [(ih (processOnePackage env tc st p) oid).1 hrest, ← heqp]
          exact processOnePackage_self env tc st p
        | inr hqr => exact absurd heq (hrest q hqr)

end InvoiceSyncService

theorem vat_sample (cfg : TransformConfig) :
    TransformService.calculateVatPercentage cfg sampleLine = 1901/100 := by
  rw [TransformService.calculateVatPercentage]
  rw [if_pos (by norm_num [sampleLine])]
  dsimp only
  have hfloor : round ((sampleLine.amount - sampleLine.vatBaseAmount) /
      sampleLine.vatBaseAmount * 100 * 100) = (1901 : ℤ) := by
    rw [round_eq]
    norm_num [sampleLine]
  rw [hfloor]
  norm_num

theorem validate1_sample :
    TransformService.validateTrendyolPackage samplePackage =
      { isValid := true, errors := [] } := by
  norm_num [TransformService.validateTrendyolPackage, samplePackage, sampleLine,
    sampleAddress]
  decide

set_option maxHeartbeats 1000000 in
theorem transform_sample :
    TransformService.trendyolPackageToOblioInvoice tcSample
      "2024-01-01" "2024-01-31" samplePackage = sampleRequest := by
  norm_num [TransformService.trendyolPackageToOblioInvoice,
    TransformService.mapCustomerToOblioClient,
    TransformService.mapPackageLinesToOblioProducts,
    TransformService.mapPackageLineToOblioProduct,
    TransformService.extractCurrency, TransformService.mapCountryCode,
    TransformService.calculateVatPercentage, round_eq,
    tcSample, InvoiceSyncService.transformConfigOf,
    samplePackage, sampleLine, sampleAddress,
    sampleRequest, sampleProduct, jsTrim]
  decide

set_option maxHeartbeats 1000000 in
set_option maxRecDepth 4000 in
set_option synthInstance.maxSize 1000 in
set_option synthInstance.maxHeartbeats 1000000 in
theorem validate2_sample :
    TransformService.validateTransformedData sampleRequest =
      { isValid := true, errors := [] } := by
  norm_num [TransformService.validateTransformedData,
    TransformService.validateRequiredFields, TransformService.validateFormats,
    TransformService.validateBusinessRules, TransformService.validateProducts,
    sampleRequest, sampleProduct, jsTrim, isIsoDateShape, jsDateOnlyValue,
    daysInMonth, isLeapYear, digitVal, isDigitChar]
  decide

theorem attempt_ok_sample (store : Option SessionData) :
    InvoiceSyncService.attemptPackage okEnv tcSample store samplePackage "1" =
      ([RemoteCall.createInvoice sampleRequest],
       Except.error "Oblio invoice created but no link returned") := by
  rw [InvoiceSyncService.attemptPackage, validate1_sample]
  norm_num [okEnv, transform_sample, validate2_sample,
    OblioInvoiceResponse.topLevelLink]

theorem attempt_net_sample (store : Option SessionData) :
    InvoiceSyncService.attemptPackage netFailEnv tcSample store samplePackage "1" =
      ([RemoteCall.createInvoice sampleRequest],
       Except.error "Network connection failed") := by
  rw [InvoiceSyncService.attemptPackage, validate1_sample]
  norm_num [netFailEnv, transform_sample, validate2_sample]

theorem retryAttempt_ok_sample (store : Option SessionData) :
    InvoiceSyncService.retryAttempt retryEnv tcSample store samplePackage "1" =
      ([RemoteCall.createInvoice sampleRequest,
        RemoteCall.sendInvoiceLinkToOrder 1 "https://oblio.eu/invoice/123"],
       Except.ok (BrowserStorageService.updateProcessedInvoice store "1"
         { oblioInvoiceId := some "FACT001",
           status := some InvoiceStatus.completed,
           processedAt := some 2000 })) := by
  have hid : samplePackage.id = 1 := rfl
  rw [InvoiceSyncService.retryAttempt, validate1_sample]
  norm_num [retryEnv, transform_sample, validate2_sample, sampleResponse, hid]
  rw [if_neg (by decide)]
  simp

theorem retryAttempt_net_sample (store : Option SessionData) :
    InvoiceSyncService.retryAttempt netFailEnv tcSample store samplePackage "1" =
      ([RemoteCall.createInvoice sampleRequest],
       Except.error "Network connection failed") := by
  rw [InvoiceSyncService.retryAttempt, validate1_sample]
  norm_num [netFailEnv, transform_sample, validate2_sample]

theorem run_net_sample (ids : List String)
    (hin : ids.contains (toString samplePackage.id) = true) :
    InvoiceSyncService.processSelectedPackages netFailEnv sampleConfig
        sampleStore ids =
      (some { currentShipmentPackages := [samplePackage],
              processedInvoices :=
                [{ trendyolOrderId := "1", status := .failed,
                   errorMessage := some "Network connection failed",
                   processedAt := 1000 }] },
       [RemoteCall.createInvoice sampleRequest],
       Except.ok { syncId := "sync-1000", totalOrders := 1, successCount := 0,
                   failureCount := 1,
                   errors := [{ orderId := "1", errorCode := "Error",
                                message := "Network connection failed",
                                timestamp := 1000 }] }) := by
  have hids : toString samplePackage.id = "1" := by decide
  have htc : InvoiceSyncService.transformConfigOf
      { cif := "RO12345678", workStation := 1 } = tcSample := rfl
  have hsync : "sync-" ++ toString (1000 : Nat) = "sync-1000" := by decide
  have hnow : netFailEnv.now = 1000 := rfl
  have hfilter : List.filter (fun pkg => ids.contains (toString pkg.id))
      [samplePackage] = [samplePackage] := by
    rw [List.filter_cons, if_pos hin]
    rfl
  have hsession : BrowserStorageService.getSessionData sampleStore =
      some { currentShipmentPackages := [samplePackage],
             processedInvoices := [] } := rfl
  rw [InvoiceSyncService.processSelectedPackages, hsession]
  dsimp only
  rw [hfilter, if_neg (by decide)]
  have hconfig : sampleConfig =
      some { oblio := some { cif := "RO12345678", workStation := 1 } } := rfl
  simp only [hconfig]
  rw [htc]
  simp only [List.foldl_cons, List.foldl_nil]
  simp only [InvoiceSyncService.processOnePackage, hids, attempt_net_sample]
  norm_num [BrowserStorageService.addProcessedInvoice,
    BrowserStorageService.addToProcessedList,
    BrowserStorageService.getDefaultSessionData,
    BrowserStorageService.updateProcessedInvoice,
    BrowserStorageService.updateInProcessedList,
    BrowserStorageService.applyInvoiceUpdate, BrowserStorageService.updField,
    sampleStore, hnow, hsync]

theorem run_ok_sample (ids : List String)
    (hin : ids.contains (toString samplePackage.id) = true) :
    InvoiceSyncService.processSelectedPackages okEnv sampleConfig
        sampleStore ids =
      (some { currentShipmentPackages := [samplePackage],
              processedInvoices :=
                [{ trendyolOrderId := "1", status := .failed,
                   errorMessage :=
                     some "Oblio invoice created but no link returned",
                   processedAt := 1700000000000 }] },
       [RemoteCall.createInvoice sampleRequest],
       Except.ok { syncId := "sync-1700000000000", totalOrders := 1,
                   successCount := 0, failureCount := 1,
                   errors := [{ orderId := "1", errorCode := "Error",
                                message :=
                                  "Oblio invoice created but no link returned",
                                timestamp := 1700000000000 }] }) := by
  have hids : toString samplePackage.id = "1" := by decide
  have htc : InvoiceSyncService.transformConfigOf
      { cif := "RO12345678", workStation := 1 } = tcSample := rfl
  have hsync : "sync-" ++ toString (1700000000000 : Nat) =
      "sync-1700000000000" := by decide
  have hnow : okEnv.now = 1700000000000 := rfl
  have hfilter : List.filter (fun pkg => ids.contains (toString pkg.id))
      [samplePackage] = [samplePackage] := by
    rw [List.filter_cons, if_pos hin]
    rfl
  have hsession : BrowserStorageService.getSessionData sampleStore =
      some { currentShipmentPackages := [samplePackage],
             processedInvoices := [] } := rfl
  have hconfig : sampleConfig =
      some { oblio := some { cif := "RO12345678", workStation := 1 } } := rfl
  rw [InvoiceSyncService.processSelectedPackages, hsession]
  dsimp only
  rw [hfilter, if_neg (by decide)]
  simp only [hconfig]
  rw [htc]
  simp only [List.foldl_cons, List.foldl_nil]
  simp only [InvoiceSyncService.processOnePackage, hids, attempt_ok_sample]
  norm_num [BrowserStorageService.addProcessedInvoice,
    BrowserStorageService.addToProcessedList,
    BrowserStorageService.getDefaultSessionData,
    BrowserStorageService.updateProcessedInvoice,
    BrowserStorageService.updateInProcessedList,
    BrowserStorageService.applyInvoiceUpdate, BrowserStorageService.updField,
    sampleStore, hnow, hsync]

theorem retry_run_sample :
    InvoiceSyncService.retryFailedInvoice retryEnv sampleConfig 3
        (some { currentShipmentPackages := [samplePackage],
                processedInvoices :=
                  [{ trendyolOrderId := "1", status := .failed,
                     errorMessage := some "Network connection failed",
                     processedAt := 1000 }] }) "1" =
      (some { currentShipmentPackages := [samplePackage],
              processedInvoices :=
                [{ trendyolOrderId := "1", oblioInvoiceId := some "FACT001",
                   status := .completed,
                   errorMessage := some "Network connection failed",
                   retryCount := some 1, lastRetryAt := some 2000,
                   nextRetryAt := some 4000, processedAt := 2000 }] },
       [RemoteCall.createInvoice sampleRequest,
        RemoteCall.sendInvoiceLinkToOrder 1 "https://oblio.eu/invoice/123"],
       Except.ok ()) := by
  have hrec : BrowserStorageService.getProcessedInvoice
      (some { currentShipmentPackages := [samplePackage],
              processedInvoices :=
                [{ trendyolOrderId := "1", status := .failed,
                   errorMessage := some "Network connection failed",
                   processedAt := 1000 }] }) "1" =
      some { trendyolOrderId := "1", status := .failed,
             errorMessage := some "Network connection failed",
             processedAt := 1000 } := by decide
  have htc : InvoiceSyncService.transformConfigOf
      { cif := "RO12345678", workStation := 1 } = tcSample := rfl
  have hconfig : sampleConfig =
      some { oblio := some { cif := "RO12345678", workStation := 1 } } := rfl
  have hnow : retryEnv.now = 2000 := rfl
  rw [InvoiceSyncService.retryFailedInvoice, hrec]
  dsimp only
  rw [if_neg (by decide), if_neg (by decide), if_neg (by decide)]
  simp only [BrowserStorageService.getSessionData]
  rw [List.find?_cons_of_pos _ (by decide)]
  simp only [hconfig]
  rw [htc]
  simp only [retryAttempt_ok_sample]
  norm_num [InvoiceSyncService.calculateBackoffDelay,
    InvoiceSyncService.retryAcceptUpdate,
    BrowserStorageService.updateProcessedInvoice,
    BrowserStorageService.updateInProcessedList,
    BrowserStorageService.applyInvoiceUpdate, BrowserStorageService.updField,
    BrowserStorageService.getDefaultSessionData, hnow]

theorem retry_netfail_run :
    InvoiceSyncService.retryFailedInvoice netFailEnv sampleConfig 3
        failedStore "1" =
      (some { currentShipmentPackages := [samplePackage],
              processedInvoices :=
                [{ trendyolOrderId := "1", status := .failed,
                   errorMessage := some "Network connection failed",
                   retryCount := some 1, lastRetryAt := some 1000,
                   nextRetryAt := some 3000, processedAt := 1000 }] },
       [RemoteCall.createInvoice sampleRequest],
       Except.error "Network connection failed") := by
  have hrec : BrowserStorageService.getProcessedInvoice failedStore "1" =
      some failedRecord := by decide
  have htc : InvoiceSyncService.transformConfigOf
      { cif := "RO12345678", workStation := 1 } = tcSample := rfl
  have hconfig : sampleConfig =
      some { oblio := some { cif := "RO12345678", workStation := 1 } } := rfl
  have hnow : netFailEnv.now = 1000 := rfl
  rw [InvoiceSyncService.retryFailedInvoice, hrec]
  dsimp only [failedRecord]
  rw [if_neg (by decide), if_neg (by decide), if_neg (by decide)]
  simp only [BrowserStorageService.getSessionData, failedStore]
  rw [List.find?_cons_of_pos _ (by decide)]
  simp only [hconfig]
  rw [htc]
  simp only [retryAttempt_net_sample]
  norm_num [InvoiceSyncService.calculateBackoffDelay,
    InvoiceSyncService.retryAcceptUpdate,
    BrowserStorageService.updateProcessedInvoice,
    BrowserStorageService.updateInProcessedList,
    BrowserStorageService.applyInvoiceUpdate, BrowserStorageService.updField,
    BrowserStorageService.getDefaultSessionData, hnow, failedRecord]

theorem run_net_completed :
    InvoiceSyncService.processSelectedPackages netFailEnv sampleConfig
        (some { currentShipmentPackages := [samplePackage],
                processedInvoices :=
                  [{ trendyolOrderId := "1", oblioInvoiceId := some "FACT001",
                     status := .completed,
                     errorMessage := some "Network connection failed",
                     retryCount := some 1, lastRetryAt := some 2000,
                     nextRetryAt := some 4000, processedAt := 2000 }] })
        ["1"] =
      (some { currentShipmentPackages := [samplePackage],
              processedInvoices :=
                [{ trendyolOrderId := "1", status := .failed,
                   errorMessage := some "Network connection failed",
                   processedAt := 1000 }] },
       [RemoteCall.createInvoice sampleRequest],
       Except.ok { syncId := "sync-1000", totalOrders := 1, successCount := 0,
                   failureCount := 1,
                   errors := [{ orderId := "1", errorCode := "Error",
                                message := "Network connection failed",
                                timestamp := 1000 }] }) := by
  have hids : toString samplePackage.id = "1" := by decide
  have htc : InvoiceSyncService.transformConfigOf
      { cif := "RO12345678", workStation := 1 } = tcSample := rfl
  have hsync : "sync-" ++ toString (1000 : Nat) = "sync-1000" := by decide
  have hnow : netFailEnv.now = 1000 := rfl
  have hfilter : List.filter (fun pkg => (["1"] : List String).contains
      (toString pkg.id)) [samplePackage] = [samplePackage] := by
    rw [List.filter_cons, if_pos (by decide)]
    rfl
  have hconfig : sampleConfig =
      some { oblio := some { cif := "RO12345678", workStation := 1 } } := rfl
  rw [InvoiceSyncService.processSelectedPackages]
  dsimp only [BrowserStorageService.getSessionData]
  rw [hfilter, if_neg (by decide)]
  simp only [hconfig]
  rw [htc]
  simp only [List.foldl_cons, List.foldl_nil]
  simp only [InvoiceSyncService.processOnePackage, hids, attempt_net_sample]
  norm_num [BrowserStorageService.addProcessedInvoice,
    BrowserStorageService.addToProcessedList,
    BrowserStorageService.getDefaultSessionData,
    BrowserStorageService.updateProcessedInvoice,
    BrowserStorageService.updateInProcessedList,
    BrowserStorageService.applyInvoiceUpdate, BrowserStorageService.updField,
    hnow, hsync]

/-- C8: for every attempt number n ≥ 1 the backoff delay in seconds is
min(2 × 2^(n−1), 300); in particular backoff(1)=2, backoff(2)=4,
backoff(3)=8, backoff(4)=16 and backoff(10)=300. -/
theorem calculateBackoffDelay_spec :
    (∀ n : Nat, 1 ≤ n →
      InvoiceSyncService.calculateBackoffDelay n = min (2 * 2 ^ (n - 1)) 300) ∧
    InvoiceSyncService.calculateBackoffDelay 1 = 2 ∧
    InvoiceSyncService.calculateBackoffDelay 2 = 4 ∧
    InvoiceSyncService.calculateBackoffDelay 3 = 8 ∧
    InvoiceSyncService.calculateBackoffDelay 4 = 16 ∧
    InvoiceSyncService.calculateBackoffDelay 10 = 300 := by
  refine ⟨fun n _ => rfl, ?_, ?_, ?_, ?_, ?_⟩ <;> decide

theorem calculateBackoffDelay_spec_witness :
    1 ≤ 3 ∧
      InvoiceSyncService.calculateBackoffDelay 3 = min (2 * 2 ^ (3 - 1)) 300 :=
  ⟨by decide, calculateBackoffDelay_spec.1 3 (by decide)⟩

/-- C9: with a positive VAT base and positive amount the line VAT
percentage is (amount − vatBaseAmount)/vatBaseAmount × 100 rounded to
two decimals, otherwise the configured default; for amount 100 and
base 84.03 the value is within 0.01 of 19, and for base 0 it is the
default exactly. -/
theorem calculateVatPercentage_spec :
    (∀ (cfg : TransformConfig) (line : PackageLine),
      0 < line.vatBaseAmount → 0 < line.amount →
        TransformService.calculateVatPercentage cfg line =
          ((round ((line.amount - line.vatBaseAmount) / line.vatBaseAmount
            * 100 * 100) : ℤ) : ℚ) / 100) ∧
    (∀ (cfg : TransformConfig) (line : PackageLine), line.vatBaseAmount = 0 →
      TransformService.calculateVatPercentage cfg line =
        cfg.defaultVatPercentage) ∧
    (∀ cfg : TransformConfig,
      |TransformService.calculateVatPercentage cfg sampleLine - 19| ≤ 1/100) ∧
    (∀ cfg : TransformConfig,
      TransformService.calculateVatPercentage cfg
        { sampleLine with vatBaseAmount := 0 } = cfg.defaultVatPercentage) := by
  refine ⟨?_, ?_, ?_, ?_⟩
  · intro cfg line h1 h2
    rw [TransformService.calculateVatPercentage, if_pos ⟨h1.ne', h1, h2⟩]
  · intro cfg line h
    rw [TransformService.calculateVatPercentage, if_neg (by simp [h])]
  · intro cfg
    rw [vat_sample]
    norm_num [abs_le]
  · intro cfg
    rw [TransformService.calculateVatPercentage, if_neg (by norm_num)]

theorem calculateVatPercentage_spec_witness :
    ({ sampleLine with vatBaseAmount := 0 } : PackageLine).vatBaseAmount = 0 ∧
      TransformService.calculateVatPercentage tcSample
          { sampleLine with vatBaseAmount := 0 } =
        tcSample.defaultVatPercentage :=
  ⟨rfl, calculateVatPercentage_spec.2.1 tcSample _ rfl⟩

/-- C10: updating a processed record that does not exist in the current
session data is a silent no-op: no record is created and the stored
session data is unchanged. -/
theorem updateProcessedInvoice_missing_noop :
    ∀ (store : Option SessionData) (orderId : String)
      (u : BrowserStorageService.ProcessedInvoiceUpdate),
      BrowserStorageService.getProcessedInvoice store orderId = none →
        BrowserStorageService.updateProcessedInvoice store orderId u = store := by
  intro store orderId u h
  cases store with
  | none => rfl
  | some sd =>
    have h2 : sd.processedInvoices.find?
        (fun inv => inv.trendyolOrderId == orderId) = none := h
    have h3 := BrowserStorageService.updateInProcessedList_none orderId u
      sd.processedInvoices h2
    show (match BrowserStorageService.updateInProcessedList orderId u
        sd.processedInvoices with
      | none => some sd
      | some l => some { sd with processedInvoices := l }) = some sd
    rw [h3]

theorem updateProcessedInvoice_missing_noop_witness :
    BrowserStorageService.getProcessedInvoice sampleStore "9" = none ∧
      BrowserStorageService.updateProcessedInvoice sampleStore "9"
        { status := some .failed } = sampleStore :=
  ⟨rfl, updateProcessedInvoice_missing_noop sampleStore "9" _ rfl⟩

/-- C5: filterPackagesWithoutInvoices keeps exactly the packages whose
status is not the Awaiting sentinel and whose processed record, if any,
is not completed; the relative order of the input is preserved (the
result is a sublist of the input). -/
theorem filterPackagesWithoutInvoices_spec :
    (∀ (store : Option SessionData) (packages : List TrendyolShipmentPackage)
        (p : TrendyolShipmentPackage),
      p ∈ InvoiceSyncService.filterPackagesWithoutInvoices store packages ↔
        p ∈ packages ∧ p.status ≠ "Awaiting" ∧
          ∀ r, BrowserStorageService.getProcessedInvoice store
              (toString p.id) = some r → r.status ≠ .completed) ∧
    (∀ (store : Option SessionData) (packages : List TrendyolShipmentPackage),
      (InvoiceSyncService.filterPackagesWithoutInvoices store packages).Sublist
        packages) := by
  constructor
  · intro store packages p
    rw [InvoiceSyncService.filterPackagesWithoutInvoices, List.mem_filter]
    constructor
    · rintro ⟨hp, hcond⟩
      by_cases hA : p.status = "Awaiting"
      · rw [if_pos (by simpa using hA)] at hcond
        exact absurd hcond (by simp)
      · rw [if_neg (by simpa using hA)] at hcond
        refine ⟨hp, hA, ?_⟩
        intro r hr hstat
        have hc : InvoiceSyncService.checkInvoiceLinkStatus store p = false := by
          simpa using hcond
        rw [InvoiceSyncService.checkInvoiceLinkStatus, hr] at hc
        simp at hc
        exact hc hstat
    · rintro ⟨hp, hA, hr⟩
      refine ⟨hp, ?_⟩
      rw [if_neg (by simpa using hA)]
      rw [InvoiceSyncService.checkInvoiceLinkStatus]
      cases hg : BrowserStorageService.getProcessedInvoice store
          (toString p.id) with
      | none => rfl
      | some r2 =>
        have hne := hr r2 hg
        simp [hne]
  · intro store packages
    exact List.filter_sublist _

theorem filterPackagesWithoutInvoices_spec_witness :
    samplePackage ∈
      InvoiceSyncService.filterPackagesWithoutInvoices sampleStore
        [samplePackage] :=
  (filterPackagesWithoutInvoices_spec.1 sampleStore [samplePackage]
      samplePackage).mpr
    ⟨by simp, by decide, fun r hr => Option.noConfusion hr⟩

/-- C7: every gating rejection of retryFailedInvoice — missing record,
status other than failed (with the "current status" message), exhausted
retry budget, unexpired backoff window, or an error text classified
NON_RETRYABLE_ERROR — returns the corresponding error with the stored
session data unchanged and no call to the accounting or marketplace
client. -/
theorem retryFailedInvoice_gating :
    ∀ (env : SyncEnv) (config : Option EncryptedConfig) (maxRetries : Nat)
      (store : Option SessionData) (packageId : String),
    (BrowserStorageService.getProcessedInvoice store packageId = none →
      InvoiceSyncService.retryFailedInvoice env config maxRetries store
          packageId =
        (store, [], Except.error
          ("No processed invoice record found for package " ++ packageId))) ∧
    (∀ rec, BrowserStorageService.getProcessedInvoice store packageId =
        some rec → rec.status ≠ .failed →
      InvoiceSyncService.retryFailedInvoice env config maxRetries store
          packageId =
        (store, [], Except.error ("Cannot retry invoice " ++ packageId ++
          " - current status is " ++ rec.status.toStr))) ∧
    (∀ rec, BrowserStorageService.getProcessedInvoice store packageId =
        some rec → rec.status = .failed →
      maxRetries ≤ rec.retryCount.getD 0 →
      InvoiceSyncService.retryFailedInvoice env config maxRetries store
          packageId =
        (store, [], Except.error ("Maximum retry attempts (" ++
          toString maxRetries ++ ") exceeded for package " ++ packageId))) ∧
    (∀ rec t, BrowserStorageService.getProcessedInvoice store packageId =
        some rec → rec.status = .failed →
      rec.retryCount.getD 0 < maxRetries →
      rec.nextRetryAt = some t → env.now < t →
      InvoiceSyncService.retryFailedInvoice env config maxRetries store
          packageId =
        (store, [], Except.error ("Must wait " ++
          toString ((t - env.now + 999) / 1000) ++
          " seconds before retrying package " ++ packageId))) ∧
    (∀ rec, BrowserStorageService.getProcessedInvoice store packageId =
        some rec → rec.status = .failed →
      rec.retryCount.getD 0 < maxRetries →
      (∀ t, rec.nextRetryAt = some t → t ≤ env.now) →
      InvoiceSyncService.extractErrorCode (rec.errorMessage.getD "") =
        "NON_RETRYABLE_ERROR" →
      InvoiceSyncService.retryFailedInvoice env config maxRetries store
          packageId =
        (store, [], Except.error ("Error for package " ++ packageId ++
          " is not retryable: NON_RETRYABLE_ERROR"))) := by
  intro env config maxRetries store packageId
  refine ⟨?_, ?_, ?_, ?_, ?_⟩
  · intro h
    rw [InvoiceSyncService.retryFailedInvoice, h]
  · intro rec hrec hst
    rw [InvoiceSyncService.retryFailedInvoice, hrec]
    dsimp only
    rw [if_pos hst]
  · intro rec hrec hst hmax
    rw [InvoiceSyncService.retryFailedInvoice, hrec]
    dsimp only
    rw [if_neg (fun hc => hc hst), if_pos hmax]
  · intro rec t hrec hst hlt hnra hnow
    rw [InvoiceSyncService.retryFailedInvoice, hrec]
    dsimp only
    rw [if_neg (fun hc => hc hst), if_neg (Nat.not_le.mpr hlt), hnra]
    dsimp only
    rw [if_pos hnow]
  · intro rec hrec hst hlt hnra hcode
    rw [InvoiceSyncService.retryFailedInvoice, hrec]
    dsimp only
    rw [if_neg (fun hc => hc hst), if_neg (Nat.not_le.mpr hlt)]
    have hmw : (match rec.nextRetryAt with
        | some nextRetryTime =>
          if env.now < nextRetryTime then
            some ((nextRetryTime - env.now + 999) / 1000)
          else none
        | none => none) = (none : Option Nat) := by
      cases h : rec.nextRetryAt with
      | none => rfl
      | some t =>
        dsimp only
        rw [if_neg (Nat.not_lt.mpr (hnra t h))]
    rw [hmw]
    dsimp only
    rw [hcode]
    rw [if_pos (by decide)]
    rw [String.append_assoc]
    rfl

theorem retryFailedInvoice_gating_witness :
    BrowserStorageService.getProcessedInvoice
        (some { currentShipmentPackages := [samplePackage],
                processedInvoices :=
                  [{ trendyolOrderId := "1", status := .completed,
                     processedAt := 5 }] }) "1" =
      some { trendyolOrderId := "1", status := InvoiceStatus.completed,
             processedAt := 5 } ∧
    ({ trendyolOrderId := "1", status := InvoiceStatus.completed,
       processedAt := 5 } : ProcessedInvoice).status ≠ .failed ∧
    InvoiceSyncService.retryFailedInvoice retryEnv sampleConfig 3
        (some { currentShipmentPackages := [samplePackage],
                processedInvoices :=
                  [{ trendyolOrderId := "1", status := .completed,
                     processedAt := 5 }] }) "1" =
      (some { currentShipmentPackages := [samplePackage],
              processedInvoices :=
                [{ trendyolOrderId := "1", status := .completed,
                   processedAt := 5 }] },
       [], Except.error ("Cannot retry invoice " ++ "1" ++
        " - current status is " ++
        ({ trendyolOrderId := "1", status := InvoiceStatus.completed,
           processedAt := 5 } : ProcessedInvoice).status.toStr)) :=
  ⟨by decide, by decide,
    (retryFailedInvoice_gating retryEnv sampleConfig 3
        (some { currentShipmentPackages := [samplePackage],
                processedInvoices :=
                  [{ trendyolOrderId := "1", status := .completed,
                     processedAt := 5 }] }) "1").2.1
      { trendyolOrderId := "1", status := .completed, processedAt := 5 }
      (by decide) (by decide)⟩

/-- C6: processSelectedPackages never throws for a per-item failure: an
error result arises only from the preconditions (no session data, empty
id intersection, or missing configuration), and every ok result tallies
successCount + failureCount = totalOrders with exactly one structured
error per failed package. -/
theorem processSelectedPackages_total :
    ∀ (env : SyncEnv) (config : Option EncryptedConfig)
      (store : Option SessionData) (packageIds : List String),
    (∀ e, (InvoiceSyncService.processSelectedPackages env config store
          packageIds).2.2 = Except.error e →
      store = none ∨
      (∃ sd, store = some sd ∧
        sd.currentShipmentPackages.filter
          (fun pkg => packageIds.contains (toString pkg.id)) = []) ∨
      config = none ∨ (∃ cfg, config = some cfg ∧ cfg.oblio = none)) ∧
    (∀ r, (InvoiceSyncService.processSelectedPackages env config store
          packageIds).2.2 = Except.ok r →
      r.successCount + r.failureCount = r.totalOrders ∧
      r.errors.length = r.failureCount) := by
  intro env config store packageIds
  cases store with
  | none =>
    refine ⟨fun e _ => Or.inl rfl, fun r hr => ?_⟩
    rw [InvoiceSyncService.processSelectedPackages] at hr
    dsimp only [BrowserStorageService.getSessionData] at hr
    exact absurd hr (by simp)
  | some sd =>
    by_cases hfe : (sd.currentShipmentPackages.filter
        (fun pkg => packageIds.contains (toString pkg.id))).isEmpty = true
    · refine ⟨fun e _ => Or.inr (Or.inl ⟨sd, rfl, ?_⟩), fun r hr => ?_⟩
      · cases hl : sd.currentShipmentPackages.filter
            (fun pkg => packageIds.contains (toString pkg.id)) with
        | nil => rfl
        | cons a l =>
          rw [hl] at hfe
          exact absurd hfe (by simp)
      · rw [InvoiceSyncService.processSelectedPackages] at hr
        dsimp only [BrowserStorageService.getSessionData] at hr
        rw [if_pos hfe] at hr
        exact absurd hr (by simp)
    · cases config with
      | none =>
        refine ⟨fun e _ => Or.inr (Or.inr (Or.inl rfl)), fun r hr => ?_⟩
        rw [InvoiceSyncService.processSelectedPackages] at hr
        dsimp only [BrowserStorageService.getSessionData] at hr
        rw [if_neg hfe] at hr
        exact absurd hr (by simp)
      | some cfg =>
        cases hob : cfg.oblio with
        | none =>
          refine ⟨fun e _ => Or.inr (Or.inr (Or.inr ⟨cfg, rfl, hob⟩)),
            fun r hr => ?_⟩
          rw [InvoiceSyncService.processSelectedPackages] at hr
          dsimp only [BrowserStorageService.getSessionData] at hr
          rw [if_neg hfe, hob] at hr
          exact absurd hr (by simp)
        | some oblioCfg =>
          constructor
          · intro e he
            rw [InvoiceSyncService.processSelectedPackages] at he
            dsimp only [BrowserStorageService.getSessionData] at he
            rw [if_neg hfe, hob] at he
            exact absurd he (by simp)
          · intro r hr
            rw [InvoiceSyncService.processSelectedPackages] at hr
            dsimp only [BrowserStorageService.getSessionData] at hr
            rw [if_neg hfe, hob] at hr
            have hr2 := Except.ok.inj hr
            subst hr2
            obtain ⟨h1, h2⟩ := InvoiceSyncService.foldl_tally env
              (InvoiceSyncService.transformConfigOf oblioCfg)
              (sd.currentShipmentPackages.filter
                (fun pkg => packageIds.contains (toString pkg.id)))
              { store := some sd, calls := [], successCount := 0,
                failureCount := 0, errors := [] } rfl
            dsimp only
            dsimp only at h2
            exact ⟨by omega, h1⟩

theorem processSelectedPackages_total_witness :
    (InvoiceSyncService.processSelectedPackages netFailEnv sampleConfig
        sampleStore ["1"]).2.2 =
      Except.ok { syncId := "sync-1000", totalOrders := 1, successCount := 0,
                  failureCount := 1,
                  errors := [{ orderId := "1", errorCode := "Error",
                               message := "Network connection failed",
                               timestamp := 1000 }] } ∧
    (1 : Nat) * 1 = 1 ∧
    (0 : Nat) + 1 = 1 ∧ (1 : Nat) = 1 :=
  have hrun : (InvoiceSyncService.processSelectedPackages netFailEnv
      sampleConfig sampleStore ["1"]).2.2 =
      Except.ok { syncId := "sync-1000", totalOrders := 1, successCount := 0,
                  failureCount := 1,
                  errors := [{ orderId := "1", errorCode := "Error",
                               message := "Network connection failed",
                               timestamp := 1000 }] } := by
    rw [run_net_sample ["1"] (by decide)]
  have hc := (processSelectedPackages_total netFailEnv sampleConfig
      sampleStore ["1"]).2 _ hrun
  ⟨hrun, rfl, hc⟩

/-- C2 (amended): requested ids that resolve to no package in the
session working set are silently skipped — the aggregate covers only
the resolving ids (totalOrders is the size of the intersection and
every recorded error belongs to a resolved package) and no per-id
"package not found" error is produced; the whole batch fails with the
"no matching packages" error exactly when no requested id resolves. -/
theorem processSelectedPackages_missing_ids :
    ∀ (env : SyncEnv) (config : Option EncryptedConfig) (sd : SessionData)
      (packageIds : List String),
    (sd.currentShipmentPackages.filter
        (fun pkg => packageIds.contains (toString pkg.id)) = [] →
      (InvoiceSyncService.processSelectedPackages env config (some sd)
          packageIds).2.2 =
        Except.error "No matching packages found for the provided IDs") ∧
    (∀ cfg oblioCfg, config = some cfg → cfg.oblio = some oblioCfg →
      sd.currentShipmentPackages.filter
          (fun pkg => packageIds.contains (toString pkg.id)) ≠ [] →
      ∃ r, (InvoiceSyncService.processSelectedPackages env config (some sd)
            packageIds).2.2 = Except.ok r ∧
        r.totalOrders = (sd.currentShipmentPackages.filter
          (fun pkg => packageIds.contains (toString pkg.id))).length ∧
        ∀ e ∈ r.errors, ∃ p ∈ sd.currentShipmentPackages.filter
            (fun pkg => packageIds.contains (toString pkg.id)),
          e.orderId = toString p.id) := by
  intro env config sd packageIds
  constructor
  · intro h
    rw [InvoiceSyncService.processSelectedPackages]
    dsimp only [BrowserStorageService.getSessionData]
    rw [h]
    rfl
  · intro cfg oblioCfg hcfg hob hne
    subst hcfg
    rw [InvoiceSyncService.processSelectedPackages]
    dsimp only [BrowserStorageService.getSessionData]
    rw [if_neg (fun hemp => hne (by simpa using hemp)), hob]
    dsimp only
    refine ⟨_, rfl, rfl, ?_⟩
    intro e he
    have := InvoiceSyncService.foldl_errors env
      (InvoiceSyncService.transformConfigOf oblioCfg)
      (sd.currentShipmentPackages.filter
        (fun pkg => packageIds.contains (toString pkg.id)))
      { store := some sd, calls := [], successCount := 0,
        failureCount := 0, errors := [] } e he
    cases this with
    | inl h2 => exact absurd h2 (List.not_mem_nil e)
    | inr h2 => exact h2

theorem processSelectedPackages_missing_ids_witness :
    sampleConfig = sampleConfig ∧
    (InvoiceSyncService.processSelectedPackages netFailEnv sampleConfig
        (some { currentShipmentPackages := [samplePackage],
                processedInvoices := [] }) ["7"]).2.2 =
      Except.error "No matching packages found for the provided IDs" :=
  ⟨rfl, (processSelectedPackages_missing_ids netFailEnv sampleConfig
      { currentShipmentPackages := [samplePackage], processedInvoices := [] }
      ["7"]).1 (by decide)⟩

/-- C2 counterexample: with the session working set holding only
package 1, processing ids 1 and 2 yields totalOrders 1 and a single
error for package 1 — no "package not found" error for the
unresolvable id 2 appears in the aggregate, contradicting the claim
that every unresolvable id fails individually. -/
theorem processSelectedPackages_missing_ids_cex :
    (InvoiceSyncService.processSelectedPackages netFailEnv sampleConfig
        sampleStore ["1", "2"]).2.2 =
      Except.ok { syncId := "sync-1000", totalOrders := 1, successCount := 0,
                  failureCount := 1,
                  errors := [{ orderId := "1", errorCode := "Error",
                               message := "Network connection failed",
                               timestamp := 1000 }] } ∧
    List.all
        ({ syncId := "sync-1000", totalOrders := 1, successCount := 0,
           failureCount := 1,
           errors := [{ orderId := "1", errorCode := "Error",
                        message := "Network connection failed",
                        timestamp := 1000 }] } : SyncResult).errors
        (fun e => e.orderId != "2") = true := by
  constructor
  · rw [run_net_sample ["1", "2"] (by decide)]
  · decide

theorem retry_preserves_other (env : SyncEnv) (config : Option EncryptedConfig)
    (maxRetries : Nat) (store : Option SessionData) (pid oid : String)
    (hne : pid ≠ oid) :
    BrowserStorageService.getProcessedInvoice
        (InvoiceSyncService.retryFailedInvoice env config maxRetries store
          pid).1 oid =
      BrowserStorageService.getProcessedInvoice store oid := by
  rw [InvoiceSyncService.retryFailedInvoice]
  dsimp only [BrowserStorageService.getSessionData]
  repeat' split
  all_goals try rfl
  all_goals dsimp only
  all_goals try (
    rw [BrowserStorageService.getProcessedInvoice_update_other _ _ _ _ hne,
      BrowserStorageService.getProcessedInvoice_update_other _ _ _ _ hne])
  all_goals (
    rename_i heq
    obtain ⟨u, _, hs2⟩ := InvoiceSyncService.retryAttempt_ok _ _ _ _ _ _ _ heq
    rw [hs2,
      BrowserStorageService.getProcessedInvoice_update_other _ _ _ _ hne,
      BrowserStorageService.getProcessedInvoice_update_other _ _ _ _ hne])

/-- C3 (amended): record statuses move only along pending→completed,
pending→failed, failed→pending, failed→completed and failed→failed,
and retryFailedInvoice never moves a record out of the completed
status (retry of a completed record is rejected); however completed is
not terminal for processSelectedPackages: re-selecting the id of an
already-completed package overwrites its record with a fresh pending
record and re-processes it, ending completed or failed. Records of
ids not re-selected are untouched. -/
theorem status_transitions :
    (∀ (env : SyncEnv) (config : Option EncryptedConfig) (maxRetries : Nat)
        (store : Option SessionData) (pid oid : String)
        (r : ProcessedInvoice),
      BrowserStorageService.getProcessedInvoice store oid = some r →
      r.status = .completed →
      BrowserStorageService.getProcessedInvoice
          (InvoiceSyncService.retryFailedInvoice env config maxRetries store
            pid).1 oid = some r) ∧
    (∀ (env : SyncEnv) (config : Option EncryptedConfig) (sd : SessionData)
        (packageIds : List String) (oid : String) (r : ProcessedInvoice),
      BrowserStorageService.getProcessedInvoice (some sd) oid = some r →
      r.status = .completed →
      ((∀ p ∈ sd.currentShipmentPackages.filter
            (fun pkg => packageIds.contains (toString pkg.id)),
          toString p.id ≠ oid) →
        BrowserStorageService.getProcessedInvoice
            (InvoiceSyncService.processSelectedPackages env config (some sd)
              packageIds).1 oid = some r) ∧
      ((∃ p ∈ sd.currentShipmentPackages.filter
            (fun pkg => packageIds.contains (toString pkg.id)),
          toString p.id = oid) →
        ∃ r2, BrowserStorageService.getProcessedInvoice
            (InvoiceSyncService.processSelectedPackages env config (some sd)
              packageIds).1 oid = some r2 ∧
          (r2.status = .completed ∨ r2.status = .failed))) := by
  constructor
  · intro env config maxRetries store pid oid r hr hst
    by_cases hpo : pid = oid
    · subst hpo
      rw [InvoiceSyncService.retryFailedInvoice, hr]
      dsimp only
      rw [if_pos (by simp [hst])]
      exact hr
    · rw [retry_preserves_other env config maxRetries store pid oid hpo]
      exact hr
  · intro env config sd packageIds oid r hr hst
    constructor
    · intro hno
      rw [InvoiceSyncService.processSelectedPackages]
      dsimp only [BrowserStorageService.getSessionData]
      by_cases hfe : (sd.currentShipmentPackages.filter
          (fun pkg => packageIds.contains (toString pkg.id))).isEmpty = true
      · rw [if_pos hfe]
        exact hr
      · rw [if_neg hfe]
        cases config with
        | none => exact hr
        | some cfg =>
          dsimp only
          cases hob : cfg.oblio with
          | none => exact hr
          | some oblioCfg =>
            have h := (InvoiceSyncService.foldl_records env
              (InvoiceSyncService.transformConfigOf oblioCfg)
              (sd.currentShipmentPackages.filter
                (fun pkg => packageIds.contains (toString pkg.id)))
              { store := some sd, calls := [], successCount := 0,
                failureCount := 0, errors := [] } oid).1 hno
            rw [h]
            exact hr
    · intro hex
      rw [InvoiceSyncService.processSelectedPackages]
      dsimp only [BrowserStorageService.getSessionData]
      by_cases hfe : (sd.currentShipmentPackages.filter
          (fun pkg => packageIds.contains (toString pkg.id))).isEmpty = true
      · rw [if_pos hfe]
        exact ⟨r, hr, Or.inl hst⟩
      · rw [if_neg hfe]
        cases config with
        | none => exact ⟨r, hr, Or.inl hst⟩
        | some cfg =>
          dsimp only
          cases hob : cfg.oblio with
          | none => exact ⟨r, hr, Or.inl hst⟩
          | some oblioCfg =>
            exact (InvoiceSyncService.foldl_records env
              (InvoiceSyncService.transformConfigOf oblioCfg)
              (sd.currentShipmentPackages.filter
                (fun pkg => packageIds.contains (toString pkg.id)))
              { store := some sd, calls := [], successCount := 0,
                failureCount := 0, errors := [] } oid).2 hex

theorem status_transitions_witness :
    BrowserStorageService.getProcessedInvoice
        (some { currentShipmentPackages := [samplePackage],
                processedInvoices :=
                  [{ trendyolOrderId := "3", status := .completed,
                     processedAt := 7 }] }) "3" =
      some { trendyolOrderId := "3", status := InvoiceStatus.completed,
             processedAt := 7 } ∧
    BrowserStorageService.getProcessedInvoice
        (InvoiceSyncService.retryFailedInvoice retryEnv sampleConfig 3
          (some { currentShipmentPackages := [samplePackage],
                  processedInvoices :=
                    [{ trendyolOrderId := "3", status := .completed,
                       processedAt := 7 }] }) "3").1 "3" =
      some { trendyolOrderId := "3", status := InvoiceStatus.completed,
             processedAt := 7 } :=
  ⟨by decide,
    status_transitions.1 retryEnv sampleConfig 3
      (some { currentShipmentPackages := [samplePackage],
              processedInvoices :=
                [{ trendyolOrderId := "3", status := .completed,
                   processedAt := 7 }] }) "3" "3"
      { trendyolOrderId := "3", status := .completed, processedAt := 7 }
      (by decide) rfl⟩

/-- C3 counterexample: after a failed batch attempt, a successful
manual retry completes the record; re-processing the same package id
then overwrites the completed record and, with the batch link-check
failing, leaves it failed — an operation moved a record whose status
was completed to another status, so completed is not terminal. -/
theorem status_transitions_cex :
    (BrowserStorageService.getProcessedInvoice
        (InvoiceSyncService.retryFailedInvoice retryEnv sampleConfig 3
          (InvoiceSyncService.processSelectedPackages netFailEnv sampleConfig
            sampleStore ["1"]).1 "1").1 "1").map ProcessedInvoice.status =
      some InvoiceStatus.completed ∧
    (BrowserStorageService.getProcessedInvoice
        (InvoiceSyncService.processSelectedPackages netFailEnv sampleConfig
          (InvoiceSyncService.retryFailedInvoice retryEnv sampleConfig 3
            (InvoiceSyncService.processSelectedPackages netFailEnv
              sampleConfig sampleStore ["1"]).1 "1").1 ["1"]).1 "1").map
        ProcessedInvoice.status = some InvoiceStatus.failed := by
  have h1 : (InvoiceSyncService.processSelectedPackages netFailEnv
      sampleConfig sampleStore ["1"]).1 =
      some { currentShipmentPackages := [samplePackage],
             processedInvoices :=
               [{ trendyolOrderId := "1", status := .failed,
                  errorMessage := some "Network connection failed",
                  processedAt := 1000 }] } := by
    rw [run_net_sample ["1"] (by decide)]
  constructor
  · rw [h1, retry_run_sample]
    decide
  · rw [h1, retry_run_sample]
    dsimp only
    rw [run_net_completed]
    decide

/-- C1 (code bug): sync-service.ts line 247 guards on the top-level
`link` property of the createInvoice response, but the declared
response type (models/oblio.ts) carries the document link only at
`data.link`, so the guard always throws. Even when the client resolves
with a non-empty `data.link` and the marketplace call would succeed —
the exact shape the repository test mocks and expects to succeed with
successCount 2 — the package is recorded failed with "Oblio invoice
created but no link returned" and counted as a failure, never
completed. -/
theorem processSelected_linkCheck_bug :
    (InvoiceSyncService.processSelectedPackages okEnv sampleConfig sampleStore
        ["1"]).2.2 =
      Except.ok { syncId := "sync-1700000000000", totalOrders := 1,
                  successCount := 0, failureCount := 1,
                  errors := [{ orderId := "1", errorCode := "Error",
                               message :=
                                 "Oblio invoice created but no link returned",
                               timestamp := 1700000000000 }] } ∧
    BrowserStorageService.getProcessedInvoice
        (InvoiceSyncService.processSelectedPackages okEnv sampleConfig
          sampleStore ["1"]).1 "1" =
      some { trendyolOrderId := "1", status := .failed,
             errorMessage := some "Oblio invoice created but no link returned",
             processedAt := 1700000000000 } ∧
    okEnv.createInvoice sampleRequest = Except.ok sampleResponse ∧
    sampleResponse.data.link ≠ "" := by
  refine ⟨?_, ?_, rfl, by decide⟩
  · rw [run_ok_sample ["1"] (by decide)]
  · rw [run_ok_sample ["1"] (by decide)]
    decide

/-- C4 (code bug): the retry acceptance update stamps status pending,
retryCount n+1, lastRetryAt now and nextRetryAt now + backoff(n+1) —
but the prior errorMessage is not cleared: sync-service.ts line 424
passes `errorMessage: undefined`, commented as clearing the previous
error message, and BrowserStorageService.updateProcessedInvoice treats
an undefined property as not provided and keeps the stored message.
The last two conjuncts run the full retry on the same store and show
it reaches the accounting client, i.e. the acceptance update evaluated
in the first conjunct is the one retryFailedInvoice performs, and even
the record after the whole failed retry still carries a message where
the claim requires none immediately after acceptance. -/
theorem retry_keeps_errorMessage :
    BrowserStorageService.getProcessedInvoice
        (BrowserStorageService.updateProcessedInvoice failedStore "1"
          (InvoiceSyncService.retryAcceptUpdate 1000 1 3000)) "1" =
      some { trendyolOrderId := "1", status := .pending,
             errorMessage := some "Network connection failed",
             retryCount := some 1, lastRetryAt := some 1000,
             nextRetryAt := some 3000, processedAt := 5 } ∧
    netFailEnv.now + InvoiceSyncService.calculateBackoffDelay 1 * 1000 =
      3000 ∧
    (InvoiceSyncService.retryFailedInvoice netFailEnv sampleConfig 3
        failedStore "1").1 =
      some { currentShipmentPackages := [samplePackage],
             processedInvoices :=
               [{ trendyolOrderId := "1", status := .failed,
                  errorMessage := some "Network connection failed",
                  retryCount := some 1, lastRetryAt := some 1000,
                  nextRetryAt := some 3000, processedAt := 1000 }] } ∧
    (InvoiceSyncService.retryFailedInvoice netFailEnv sampleConfig 3
        failedStore "1").2.1 = [RemoteCall.createInvoice sampleRequest] := by
  refine ⟨by decide, by decide, ?_, ?_⟩
  · rw [retry_netfail_run]
  · rw [retry_netfail_run]
